import Mathlib

/-!
# Verification of the LinkedIn followers scraper's processing pipeline

Shallow embedding of the two Python scripts
`linkedin_followers_complete.py` and `process_existing_followers.py`.

JSON values are modelled by an inductive type; Python dictionaries used as
profile maps (whose keys are arbitrary JSON values, namely `entityUrn`s) are
modelled as association lists with Python's insert/overwrite semantics.
Operations that can raise a Python exception (`in` on a non-container,
subscripting, `.get` on a non-dict, hashing an unhashable key) return
`Except Unit _`; `Unit` stands for the raised exception (exception message
texts are not modelled).

Simplifications that do not affect any theorem below:
* JSON numbers are modelled as `Int` (the data contains no floats);
* Python's `repr` of a string is modelled without escaping of quotes and
  backslashes, and Python's unification of `True`/`1` as dict keys is not
  modelled (equality of JSON values is structural);
* parsed JSON objects are assumed to have distinct keys, as `json.load`
  keeps only the last duplicate.
-/

inductive JSON where
  | null : JSON
  | bool (b : Bool) : JSON
  | num (n : Int) : JSON
  | str (s : String) : JSON
  | arr (items : List JSON) : JSON
  | obj (fields : List (String × JSON)) : JSON

mutual

/-- Decidable structural equality of JSON values. -/
def jsonDecEq : (a b : JSON) → Decidable (a = b)
  | .null, .null => .isTrue rfl
  | .bool a, .bool b => decidable_of_iff (a = b) (by simp)
  | .num a, .num b => decidable_of_iff (a = b) (by simp)
  | .str a, .str b => decidable_of_iff (a = b) (by simp)
  | .arr a, .arr b =>
    haveI := jsonDecEqList a b
    decidable_of_iff (a = b) (by simp)
  | .obj a, .obj b =>
    haveI := jsonDecEqFields a b
    decidable_of_iff (a = b) (by simp)
  | .null, .bool _ | .null, .num _ | .null, .str _ | .null, .arr _ | .null, .obj _
  | .bool _, .null | .bool _, .num _ | .bool _, .str _ | .bool _, .arr _ | .bool _, .obj _
  | .num _, .null | .num _, .bool _ | .num _, .str _ | .num _, .arr _ | .num _, .obj _
  | .str _, .null | .str _, .bool _ | .str _, .num _ | .str _, .arr _ | .str _, .obj _
  | .arr _, .null | .arr _, .bool _ | .arr _, .num _ | .arr _, .str _ | .arr _, .obj _
  | .obj _, .null | .obj _, .bool _ | .obj _, .num _ | .obj _, .str _ | .obj _, .arr _ =>
    .isFalse (by simp)

def jsonDecEqList : (a b : List JSON) → Decidable (a = b)
  | [], [] => .isTrue rfl
  | [], _ :: _ => .isFalse (by simp)
  | _ :: _, [] => .isFalse (by simp)
  | x :: xs, y :: ys =>
    haveI := jsonDecEq x y
    haveI := jsonDecEqList xs ys
    decidable_of_iff (x = y ∧ xs = ys) (by simp)

def jsonDecEqFields : (a b : List (String × JSON)) → Decidable (a = b)
  | [], [] => .isTrue rfl
  | [], _ :: _ => .isFalse (by simp)
  | _ :: _, [] => .isFalse (by simp)
  | (k, v) :: kvs, (l, w) :: lws =>
    haveI := jsonDecEq v w
    haveI := jsonDecEqFields kvs lws
    decidable_of_iff (k = l ∧ v = w ∧ kvs = lws)
      (by simp [List.cons.injEq, Prod.mk.injEq, and_assoc])

end

instance : DecidableEq JSON := jsonDecEq

instance {e a : Type} [DecidableEq e] [DecidableEq a] : DecidableEq (Except e a)
  | .ok x, .ok y => decidable_of_iff (x = y) (by simp)
  | .error x, .error y => decidable_of_iff (x = y) (by simp)
  | .ok _, .error _ => .isFalse (by simp)
  | .error _, .ok _ => .isFalse (by simp)

/-- Python dict keyed by arbitrary JSON values (used for the profile maps,
whose keys are the `entityUrn` values). -/
abbrev PyDict := List (JSON × JSON)

/-- Python truthiness of a JSON value. -/
def pyTruthy : JSON → Bool
  | .null => false
  | .bool b => b
  | .num n => n != 0
  | .str s => !s.isEmpty
  | .arr items => !items.isEmpty
  | .obj fields => !fields.isEmpty

/-- Whether a JSON value is hashable in Python (usable as a dict key);
lists and dicts are not. -/
def pyHashable : JSON → Bool
  | .arr _ => false
  | .obj _ => false
  | _ => true

/-- `charsPrefix p l` is true when `p` is a prefix of `l`. -/
def charsPrefix : List Char → List Char → Bool
  | [], _ => true
  | _ :: _, [] => false
  | a :: as, b :: bs => a == b && charsPrefix as bs

/-- `charsInfix p l` is true when `p` occurs contiguously inside `l`
(Python's substring containment `p in l`). -/
def charsInfix (p : List Char) : List Char → Bool
  | [] => p.isEmpty
  | c :: rest => charsPrefix p (c :: rest) || charsInfix p rest

/-- Python `key in container` for a string literal `key`: key membership for
dicts, element membership for lists, substring test for strings, and a
`TypeError` for the remaining types. -/
def pyInStr (key : String) : JSON → Except Unit Bool
  | .obj fields => .ok (fields.any (fun kv => kv.1 == key))
  | .arr items => .ok (items.any (fun x => decide (x = JSON.str key)))
  | .str s => .ok (charsInfix key.data s.data)
  | _ => .error ()

/-- Python `container[key]` for a string literal `key`: dict lookup
(`KeyError` when missing), `TypeError` for every other type. -/
def pyIndexStr (container : JSON) (key : String) : Except Unit JSON :=
  match container with
  | .obj fields =>
    match fields.find? (fun kv => kv.1 == key) with
    | some kv => .ok kv.2
    | none => .error ()
  | _ => .error ()

/-- Python iteration `for x in v`: the items of a list, the keys of a dict,
the characters of a string, and a `TypeError` otherwise. -/
def pyIter : JSON → Except Unit (List JSON)
  | .arr items => .ok items
  | .obj fields => .ok (fields.map (fun kv => JSON.str kv.1))
  | .str s => .ok (s.data.map (fun c => JSON.str (String.mk [c])))
  | _ => .error ()

/-- Total lookup with default on the fields of a JSON object
(Python `d.get(key, dflt)` once `d` is known to be a dict). -/
def objGet (fields : List (String × JSON)) (key : String) (dflt : JSON) : JSON :=
  match fields.find? (fun kv => kv.1 == key) with
  | some kv => kv.2
  | none => dflt

/-- Lookup in a Python dict keyed by JSON values: the first (and, for the
dicts the scripts build, only) binding of the key. -/
def dictGet (d : PyDict) (k : JSON) : Option JSON :=
  match d with
  | [] => none
  | kv :: rest => if kv.1 = k then some kv.2 else dictGet rest k

/-- Key membership in a Python dict. -/
def dictHasKey (d : PyDict) (k : JSON) : Bool :=
  match d with
  | [] => false
  | kv :: rest => kv.1 = k || dictHasKey rest k

/-- Python `d[k] = v`: overwrite in place when the key exists,
append otherwise. -/
def dictSet (d : PyDict) (k v : JSON) : PyDict :=
  if d.any (fun kv => decide (kv.1 = k)) then
    d.map (fun kv => if kv.1 = k then (k, v) else kv)
  else
    d ++ [(k, v)]

/-- Python `d.update(u)`: set each binding of `u` in order. -/
def dictUpdate (d u : PyDict) : PyDict :=
  u.foldl (fun acc kv => dictSet acc kv.1 kv.2) d

mutual

/-- Python `repr` of a JSON value (string escaping not modelled). -/
def pyRepr : JSON → String
  | .null => "None"
  | .bool true => "True"
  | .bool false => "False"
  | .num n => toString n
  | .str s => "'" ++ s ++ "'"
  | .arr items => "[" ++ ", ".intercalate (pyReprList items) ++ "]"
  | .obj fields => "\x7b" ++ ", ".intercalate (pyReprFields fields) ++ "\x7d"

def pyReprList : List JSON → List String
  | [] => []
  | x :: xs => pyRepr x :: pyReprList xs

def pyReprFields : List (String × JSON) → List String
  | [] => []
  | kv :: kvs => ("'" ++ kv.1 ++ "': " ++ pyRepr kv.2) :: pyReprFields kvs

end

/-- Python `str` of a JSON value. -/
def pyStr : JSON → String
  | .str s => s
  | v => pyRepr v

/-! ## Source transcriptions

These definitions transcribe the functions of the two scripts. The pair
`extract_profiles_from_page` / `extract_elements_from_page` is character
for character identical in both scripts and is therefore transcribed once.
`build_follower_row` differs between the scripts in a single expression
(the `entityUrn` row field), so its common part is `follower_row_parts`
and each script's version is a wrapper adding its own `entityUrn`
computation. -/

/-- One step of `extract_profiles_from_page`'s loop body:

```python
for profile in page_data["included"]:
    if "entityUrn" in profile and "publicIdentifier" in profile:
        profiles[profile["entityUrn"]] = profile
```

Membership tests and the subscript can raise (uncaught: the function has no
`try`), as can storing under an unhashable key. -/
def profiles_fold (acc : PyDict) : List JSON → Except Unit PyDict
  | [] => .ok acc
  | profile :: rest =>
    match pyInStr "entityUrn" profile with
    | .error e => .error e
    | .ok false => profiles_fold acc rest
    | .ok true =>
      match pyInStr "publicIdentifier" profile with
      | .error e => .error e
      | .ok false => profiles_fold acc rest
      | .ok true =>
        match pyIndexStr profile "entityUrn" with
        | .error e => .error e
        | .ok key =>
          if pyHashable key then profiles_fold (dictSet acc key profile) rest
          else .error ()

/-- `extract_profiles_from_page` (identical in both scripts): collect the
entries of `page_data["included"]` that carry both `entityUrn` and
`publicIdentifier`, keyed by their `entityUrn`. -/
def extract_profiles_from_page (page_data : JSON) : Except Unit PyDict :=
  match pyInStr "included" page_data with
  | .error e => .error e
  | .ok false => .ok []
  | .ok true =>
    match pyIndexStr page_data "included" with
    | .error e => .error e
    | .ok included =>
      match pyIter included with
      | .error e => .error e
      | .ok items => profiles_fold [] items

/-- The container-lookup tail of `extract_elements_from_page`:

```python
if "organizationDashFollowersByOrganizationalPage" in main_data:
    follower_data = main_data["organizationDashFollowersByOrganizationalPage"]
    if "elements" in follower_data:
        elements = follower_data["elements"]
```
-/
def container_elements_body (main_data : JSON) : Except Unit JSON :=
  match pyInStr "organizationDashFollowersByOrganizationalPage" main_data with
  | .error e => .error e
  | .ok false => .ok (JSON.arr [])
  | .ok true =>
    match pyIndexStr main_data "organizationDashFollowersByOrganizationalPage" with
    | .error e => .error e
    | .ok follower_data =>
      match pyInStr "elements" follower_data with
      | .error e => .error e
      | .ok false => .ok (JSON.arr [])
      | .ok true => pyIndexStr follower_data "elements"

/-- The container lookup with the enclosing `try` applied: any raised
exception leaves `elements` at its initial `[]`. -/
def container_elements (main_data : JSON) : JSON :=
  match container_elements_body main_data with
  | .ok v => v
  | .error _ => JSON.arr []

/-- The body of `extract_elements_from_page` (identical in both scripts):
select the nesting depth by the presence of `data` keys

```python
if "data" in page_data and "data" in page_data["data"]:
    main_data = page_data["data"]["data"]
elif "data" in page_data:
    main_data = page_data["data"]
else:
    main_data = page_data
```

then look for the follower container in the selected object. -/
def extract_elements_body (page_data : JSON) : Except Unit JSON :=
  match pyInStr "data" page_data with
  | .error e => .error e
  | .ok d1 =>
    match (if d1 then
        match pyIndexStr page_data "data" with
        | .error e => .error e
        | .ok pd => pyInStr "data" pd
      else .ok false : Except Unit Bool) with
    | .error e => .error e
    | .ok cond1 =>
      match (if cond1 then
          match pyIndexStr page_data "data" with
          | .error e => .error e
          | .ok pd => pyIndexStr pd "data"
        else if d1 then pyIndexStr page_data "data"
        else .ok page_data : Except Unit JSON) with
      | .error e => .error e
      | .ok main_data => container_elements_body main_data

/-- `extract_elements_from_page` (identical in both scripts): the whole body
runs under `try`, so any raised exception yields the initial `elements = []`. -/
def extract_elements_from_page (page_data : JSON) : JSON :=
  match extract_elements_body page_data with
  | .ok v => v
  | .error _ => JSON.arr []

/-- One output record (Python `row` dict of `build_follower_row`); field
values are JSON values, as the Python code stores whatever the lookups
return. `followedAtText` / `followedAtAccessibilityText` are the
`followedAt.text` / `followedAt.accessibilityText` columns. -/
structure Row where
  firstName : JSON
  lastName : JSON
  headline : JSON
  publicIdentifier : JSON
  linkedinUrl : JSON
  followedAtText : JSON
  followedAtAccessibilityText : JSON
  entityUrn : JSON
deriving DecidableEq

/-- The intermediate values of `build_follower_row` shared verbatim by both
scripts (everything up to the `entityUrn` row field). `profileFields` /
`elementFields` are the fields of the resolved `profile` dict and of the
`element` dict (both proven dicts by the time they are `.get`-accessed). -/
structure RowParts where
  profileFields : List (String × JSON)
  elementFields : List (String × JSON)
  followedAtText : JSON
  followedAtAccessibilityText : JSON
  publicIdentifier : JSON
  linkedinUrl : JSON
deriving DecidableEq

/-- Lines 171-175 (resp. 55-59):

```python
profile_urn = None
if "followerV2" in element and "*profile" in element["followerV2"]:
    profile_urn = element["followerV2"]["*profile"]
```
-/
def resolve_profile_urn (element : JSON) : Except Unit (Option JSON) :=
  match pyInStr "followerV2" element with
  | .error e => .error e
  | .ok false => .ok none
  | .ok true =>
    match pyIndexStr element "followerV2" with
    | .error e => .error e
    | .ok fv2 =>
      match pyInStr "*profile" fv2 with
      | .error e => .error e
      | .ok false => .ok none
      | .ok true =>
        match pyIndexStr element "followerV2" with
        | .error e => .error e
        | .ok fv2b =>
          match pyIndexStr fv2b "*profile" with
          | .error e => .error e
          | .ok urn => .ok (some urn)

/-- `profile = profile_map.get(profile_urn, {}) if profile_urn else {}`;
`.get` with an unhashable key raises `TypeError`. -/
def resolve_profile (profile_urn : Option JSON) (profile_map : PyDict) : Except Unit JSON :=
  match profile_urn with
  | some urn =>
    if pyTruthy urn then
      if pyHashable urn then .ok ((dictGet profile_map urn).getD (JSON.obj []))
      else .error ()
    else .ok (JSON.obj [])
  | none => .ok (JSON.obj [])

/-- The `followedAt` normalization:

```python
if isinstance(followed_at, dict):
    followed_text = followed_at.get("text", "")
    followed_accessibility = followed_at.get("accessibilityText", "")
else:
    followed_text = str(followed_at) if followed_at else ""
    followed_accessibility = ""
```
-/
def followedAtFields (followed_at : JSON) : JSON × JSON :=
  match followed_at with
  | .obj fs => (objGet fs "text" (JSON.str ""), objGet fs "accessibilityText" (JSON.str ""))
  | v => (if pyTruthy v then JSON.str (pyStr v) else JSON.str "", JSON.str "")

/-- `Except`-valued view of a JSON value as a dict: `.get` on a non-dict
raises `AttributeError`. -/
def asObjFields : JSON → Except Unit (List (String × JSON))
  | .obj fs => .ok fs
  | _ => .error ()

/-- The part of `build_follower_row`'s `try` body common to both scripts, in
source order: resolve the profile URN, resolve the profile dict, normalize
`followedAt` (the first `element.get`), compute `publicIdentifier` and
`linkedinUrl` (the first `profile.get`s). -/
def follower_row_parts (element : JSON) (profile_map : PyDict) : Except Unit RowParts :=
  match resolve_profile_urn element with
  | .error e => .error e
  | .ok profile_urn =>
    match resolve_profile profile_urn profile_map with
    | .error e => .error e
    | .ok profile =>
      match asObjFields element with
      | .error e => .error e
      | .ok elementFields =>
        let fa := followedAtFields (objGet elementFields "followedAt" (JSON.obj []))
        match asObjFields profile with
        | .error e => .error e
        | .ok profileFields =>
          let public_identifier := objGet profileFields "publicIdentifier" (JSON.str "")
          let linkedin_url :=
            if pyTruthy public_identifier then
              JSON.str ("https://www.linkedin.com/in/" ++ pyStr public_identifier ++ "/")
            else JSON.str ""
          .ok ⟨profileFields, elementFields, fa.1, fa.2, public_identifier, linkedin_url⟩

/-- Assemble the row dict from the shared parts and the script-specific
`entityUrn` field. -/
def row_of_parts (p : RowParts) (entityUrn : JSON) : Row :=
  { firstName := objGet p.profileFields "firstName" (JSON.str "")
  , lastName := objGet p.profileFields "lastName" (JSON.str "")
  , headline := objGet p.profileFields "headline" (JSON.str "")
  , publicIdentifier := p.publicIdentifier
  , linkedinUrl := p.linkedinUrl
  , followedAtText := p.followedAtText
  , followedAtAccessibilityText := p.followedAtAccessibilityText
  , entityUrn := entityUrn }

/-- `build_follower_row` of `linkedin_followers_complete.py`:
`"entityUrn": profile.get("entityUrn", element.get("entityUrn", ""))`.
An exception anywhere in the body is caught and yields the falsy `{}`,
modelled as `none`. -/
def build_follower_row_complete (element : JSON) (profile_map : PyDict) : Option Row :=
  match follower_row_parts element profile_map with
  | .ok p => some (row_of_parts p
      (objGet p.profileFields "entityUrn" (objGet p.elementFields "entityUrn" (JSON.str ""))))
  | .error _ => none

/-- `build_follower_row` of `process_existing_followers.py`:
`"entityUrn": profile.get("entityUrn", "")` — no fallback to the element. -/
def build_follower_row_existing (element : JSON) (profile_map : PyDict) : Option Row :=
  match follower_row_parts element profile_map with
  | .ok p => some (row_of_parts p (objGet p.profileFields "entityUrn" (JSON.str "")))
  | .error _ => none

/-! ## The page-processing loops

A snapshot file is modelled as its name together with the outcome of
`open` + `json.load`: `.error msg` when the file cannot be read or parsed
(the exception text `msg` only feeds the diagnostic), `.ok page` otherwise.
The loop state carries `all_rows`, `all_profiles` and the printed
diagnostics (`log`). An uncaught exception aborts the whole run
(`Except.error`); the output printed before the crash is not modelled. -/

abbrev PageFile := String × Except String JSON

/-- Loop state of `process_existing_pages` / `process_downloaded_pages`. -/
structure PState where
  all_rows : List Row
  all_profiles : PyDict
  log : List String
deriving DecidableEq

/-- The inner row loop of a page:

```python
for element in elements:
    row = build_follower_row(element, all_profiles)
    if row:
        all_rows.append(row)
```

A falsy `{}` (an exception caught inside `build_follower_row`) is skipped
and prints `Error building row: ...`. -/
def page_rows_fold (build : JSON → PyDict → Option Row) (profiles : PyDict) :
    List JSON → List Row × List String
  | [] => ([], [])
  | e :: rest =>
    match build e profiles with
    | some r =>
      let rl := page_rows_fold build profiles rest
      (r :: rl.1, rl.2)
    | none =>
      let rl := page_rows_fold build profiles rest
      (rl.1, "Error building row" :: rl.2)

/-- One iteration of the page loop, for either script (the two loop bodies
are identical up to the row builder used). A file that fails to read or
parse is skipped with a diagnostic (`continue`); an exception raised by
`extract_profiles_from_page` or by iterating a non-iterable `elements` is
uncaught and aborts the run. -/
def process_page_step (build : JSON → PyDict → Option Row) (s : PState) (f : PageFile) :
    Except Unit PState :=
  match f.2 with
  | .error msg =>
    .ok { s with log := s.log ++
      ["Processing " ++ f.1 ++ "...", "Error reading " ++ f.1 ++ ": " ++ msg] }
  | .ok page_data =>
    match extract_profiles_from_page page_data with
    | .error e => .error e
    | .ok page_profiles =>
      let all_profiles := dictUpdate s.all_profiles page_profiles
      let extractLog : List String :=
        match extract_elements_body page_data with
        | .ok _ => []
        | .error _ => ["Error extracting elements"]
      match pyIter (extract_elements_from_page page_data) with
      | .error e => .error e
      | .ok elements =>
        let rl := page_rows_fold build all_profiles elements
        .ok { all_rows := s.all_rows ++ rl.1
            , all_profiles := all_profiles
            , log := s.log
                ++ ["Processing " ++ f.1 ++ "..."]
                ++ ["  Found " ++ toString page_profiles.length ++ " profiles"]
                ++ extractLog
                ++ ["  Found " ++ toString elements.length ++ " follower elements"]
                ++ rl.2 }

/-- The `for i, filename in enumerate(page_files)` loop. -/
def process_pages_loop (build : JSON → PyDict → Option Row) :
    PState → List PageFile → Except Unit PState
  | s, [] => .ok s
  | s, f :: rest =>
    match process_page_step build s f with
    | .error e => .error e
    | .ok s' => process_pages_loop build s' rest

/-- Lexicographic order on character lists by code point, Python's string
comparison. -/
def charsLe : List Char → List Char → Bool
  | [], _ => true
  | _ :: _, [] => false
  | a :: as, b :: bs => if a == b then charsLe as bs else decide (a < b)

/-- Python `a <= b` on strings: lexicographic by code point. -/
def strLe (a b : String) : Bool := charsLe a.data b.data

/-- Stable insertion of `x` into a sorted list (before the first element it
compares `le` to). -/
def insertSorted (le : α → α → Bool) (x : α) : List α → List α
  | [] => [x]
  | y :: ys => if le x y then x :: y :: ys else y :: insertSorted le x ys

/-- Stable insertion sort, Python's `sorted` with a total preorder `le`. -/
def sortBy (le : α → α → Bool) : List α → List α
  | [] => []
  | x :: xs => insertSorted le x (sortBy le xs)

/-- `sorted(glob.glob("followers_page_*.json"))`: Python's `sorted` on the
matched names is a stable lexicographic sort. -/
def sort_page_files (files : List PageFile) : List PageFile :=
  sortBy (fun a b => strLe a.1 b.1) files

/-- `process_existing_pages` of `process_existing_followers.py`: sort the
snapshot files by name, report when there are none, otherwise run the page
loop and report the totals. Returns the printed diagnostics and `all_rows`. -/
def process_existing_pages (files : List PageFile) :
    Except Unit (List String × List Row) :=
  let page_files := sort_page_files files
  if page_files.isEmpty then
    .ok (["No files found matching pattern: followers_page_*.json",
          "Make sure you have downloaded follower page files first."], [])
  else
    match process_pages_loop build_follower_row_existing
        ⟨[], [], ["Found " ++ toString page_files.length ++ " page files to process..."]⟩
        page_files with
    | .error e => .error e
    | .ok s =>
      .ok (s.log ++ ["Total unique profiles: " ++ toString s.all_profiles.length,
                     "Total follower rows: " ++ toString s.all_rows.length], s.all_rows)

/-- `process_downloaded_pages` of `linkedin_followers_complete.py`: same
reducer over the same snapshot files, with that script's row builder. -/
def process_downloaded_pages (files : List PageFile) :
    Except Unit (List String × List Row) :=
  let page_files := sort_page_files files
  if page_files.isEmpty then
    .ok (["No downloaded page files found"], [])
  else
    match process_pages_loop build_follower_row_complete
        ⟨[], [], ["Processing " ++ toString page_files.length ++ " downloaded page files..."]⟩
        page_files with
    | .error e => .error e
    | .ok s =>
      .ok (s.log ++ ["Total unique profiles: " ++ toString s.all_profiles.length,
                     "Total follower rows: " ++ toString s.all_rows.length], s.all_rows)

/-- The CSV column names (identical in both scripts). -/
def csv_fieldnames : List String :=
  ["firstName", "lastName", "headline", "publicIdentifier", "linkedinUrl",
   "followedAt.text", "followedAt.accessibilityText", "entityUrn"]

/-- `write_csv` (identical in both scripts): with no rows it prints
`No rows to write` and returns `False` without opening the output file;
otherwise it writes header plus rows and returns `True`. The emitted file is
modelled as the header/rows pair (CSV quoting and filesystem errors are
outside the model). -/
def write_csv (rows : List Row) : Bool × Option (List String × List Row) :=
  if rows.isEmpty then (false, none)
  else (true, some (csv_fieldnames, rows))

/-! ## Download configuration (`linkedin_followers_complete.py`) -/

def TOTAL_FOLLOWERS : Nat := 2417

def COUNT_PER_PAGE : Nat := 50

/-- `num_pages = (TOTAL_FOLLOWERS + COUNT_PER_PAGE - 1) // COUNT_PER_PAGE`. -/
def num_pages : Nat := (TOTAL_FOLLOWERS + COUNT_PER_PAGE - 1) / COUNT_PER_PAGE

/-- `save_page_data` writes page `page` to `f"followers_page_{page}.json"`
(page indices are written without zero-padding). -/
def save_page_filename (page : Nat) : String :=
  "followers_page_" ++ toString page ++ ".json"

/-- Python `sorted` on a list of filenames: stable lexicographic sort. -/
def sort_filenames (names : List String) : List String :=
  sortBy strLe names

/-! ## Derived notions used by the theorems -/

/-- A row with its `entityUrn` column removed: the rows of the two scripts
are compared on these columns. -/
structure RowCore where
  firstName : JSON
  lastName : JSON
  headline : JSON
  publicIdentifier : JSON
  linkedinUrl : JSON
  followedAtText : JSON
  followedAtAccessibilityText : JSON
deriving DecidableEq

/-- Forget the `entityUrn` column of a row. -/
def row_core (r : Row) : RowCore :=
  ⟨r.firstName, r.lastName, r.headline, r.publicIdentifier, r.linkedinUrl,
   r.followedAtText, r.followedAtAccessibilityText⟩

/-- The observable part of a loop state: the accumulated rows and profile
map (everything except the printed diagnostics). -/
def pstate_core (s : PState) : List Row × PyDict :=
  (s.all_rows, s.all_profiles)

/-- Whether a snapshot file could be opened and parsed. -/
def file_parseable (f : PageFile) : Bool :=
  match f.2 with
  | .ok _ => true
  | .error _ => false

/-- The profile maps extracted from the parseable snapshot files, in
processing order. -/
def page_profile_maps (files : List PageFile) : List PyDict :=
  files.filterMap (fun f =>
    match f.2 with
    | .ok page => (extract_profiles_from_page page).toOption
    | .error _ => none)

/-- The binding for `key` contributed by the latest of `maps` that defines
it (`none` when no map does). -/
def latest_def (key : JSON) (maps : List PyDict) : Option JSON :=
  maps.foldl (fun acc m =>
    match dictGet m key with
    | some v => some v
    | none => acc) none

/-- The relationship elements a parsed snapshot contributes to the page
loop's inner iteration (empty when the extracted `elements` value is not
even iterable, in which case the loop crashes instead). -/
def page_elements (page : JSON) : List JSON :=
  match pyIter (extract_elements_from_page page) with
  | .ok l => l
  | .error _ => []

/-- All relationship elements contributed by the parseable snapshot files. -/
def all_elements (files : List PageFile) : List JSON :=
  files.flatMap (fun f =>
    match f.2 with
    | .ok page => page_elements page
    | .error _ => [])

/-- Total count of relationship elements across all parseable snapshots. -/
def total_elements (files : List PageFile) : Nat :=
  (all_elements files).length

/-- Well-formedness of a relationship element under which the row builder
cannot raise: the element is a dict whose `followerV2` field, when present,
is a dict whose `*profile` field, when present, is falsy or hashable. -/
def element_ok (e : JSON) : Bool :=
  match e with
  | .obj efs =>
    match efs.find? (fun kv => kv.1 == "followerV2") with
    | none => true
    | some kv =>
      match kv.2 with
      | .obj fvs =>
        match fvs.find? (fun kv2 => kv2.1 == "*profile") with
        | none => true
        | some kv2 => !pyTruthy kv2.2 || pyHashable kv2.2
      | _ => false
  | _ => false

/-- Every value stored in the dict is itself a dict (true of every profile
map the scripts build, since a stored profile survived a subscript). -/
def dict_values_objs (d : PyDict) : Prop :=
  ∀ kv ∈ d, ∃ fs, kv.2 = JSON.obj fs

/-- The diagnostic `process_existing_pages` prints when no snapshot file
matches the input pattern. -/
def no_files_message : String :=
  "No files found matching pattern: followers_page_*.json"

/-! ## Concrete snapshots and elements used by counterexamples and
witnesses -/

/-- A relationship element whose `*profile` reference is absent from the
profile map used alongside it, and which carries its own `entityUrn`. -/
def missing_profile_element : JSON :=
  JSON.obj [("followerV2", JSON.obj [("*profile", JSON.str "urn:li:fsd_profile:missing")]),
            ("followedAt", JSON.obj [("text", JSON.str "3w")]),
            ("entityUrn", JSON.str "urn:li:fsd_follower:42")]

/-- The one-level (`data`) object of `both_depths_page`: it holds both a
`data` member and the follower container with a non-empty `elements`
array. -/
def both_depths_inner : JSON :=
  JSON.obj [("data", JSON.obj []),
            ("organizationDashFollowersByOrganizationalPage",
               JSON.obj [("elements", JSON.arr [JSON.num 1])])]

/-- A snapshot whose two-level unwrapping (`data.data`) exists but holds no
follower container, while the one-level object (`data`) does hold it with a
non-empty `elements` array. -/
def both_depths_page : JSON :=
  JSON.obj [("data", both_depths_inner)]

/-- An unwrapped snapshot holding one element that references a profile
missing from the (empty) `included` section. -/
def fallback_demo_page : JSON :=
  JSON.obj [("organizationDashFollowersByOrganizationalPage",
    JSON.obj [("elements", JSON.arr [missing_profile_element])])]

/-- A single-snapshot batch exercising the missing-profile fallback. -/
def fallback_demo_files : List PageFile :=
  [("followers_page_0.json", Except.ok fallback_demo_page)]

/-- An unwrapped snapshot whose `elements` array holds a single `null`
element (the row builder raises on it and the falsy `{}` row is skipped). -/
def null_element_page : JSON :=
  JSON.obj [("organizationDashFollowersByOrganizationalPage",
    JSON.obj [("elements", JSON.arr [JSON.null])])]

/-- A single-snapshot batch holding one malformed (`null`) element. -/
def null_element_files : List PageFile :=
  [("followers_page_0.json", Except.ok null_element_page)]

/-- A profile entry for the well-formed demo batch. -/
def demo_profile : JSON :=
  JSON.obj [("entityUrn", JSON.str "urn:li:fsd_profile:p1"),
            ("publicIdentifier", JSON.str "jan-kowalski"),
            ("firstName", JSON.str "Jan"),
            ("lastName", JSON.str "Kowalski")]

/-- A well-formed element referencing `demo_profile`. -/
def demo_element : JSON :=
  JSON.obj [("followerV2", JSON.obj [("*profile", JSON.str "urn:li:fsd_profile:p1")]),
            ("followedAt", JSON.obj [("text", JSON.str "3w"),
                                     ("accessibilityText", JSON.str "3 weeks ago")])]

/-- A snapshot with one profile and two elements referencing it. -/
def demo_page : JSON :=
  JSON.obj [("included", JSON.arr [demo_profile]),
            ("organizationDashFollowersByOrganizationalPage",
               JSON.obj [("elements", JSON.arr [demo_element, demo_element])])]

/-- A batch of one well-formed snapshot whose two elements reference the
same profile. -/
def demo_files : List PageFile :=
  [("followers_page_0.json", Except.ok demo_page)]

/-- A batch of one snapshot parsing to the empty JSON object. -/
def empty_object_files : List PageFile :=
  [("followers_page_0.json", Except.ok (JSON.obj []))]

/-- The diagnostics `process_existing_pages` prints on
`empty_object_files`. -/
def empty_object_log : List String :=
  ["Found 1 page files to process...",
   "Processing followers_page_0.json...",
   "  Found 0 profiles",
   "  Found 0 follower elements",
   "Total unique profiles: 0",
   "Total follower rows: 0"]

/-! ## Helper lemmas -/

/-- Unfolding of `follower_row_parts` when the URN resolution, profile
resolution and the two dict views are pinned. -/
theorem follower_row_parts_eq {element : JSON} {m : PyDict} {u : Option JSON}
    {pfs efs : List (String × JSON)}
    (h1 : resolve_profile_urn element = .ok u)
    (h2 : resolve_profile u m = .ok (JSON.obj pfs))
    (h3 : element = JSON.obj efs) :
    follower_row_parts element m = .ok
      ⟨pfs, efs,
       (followedAtFields (objGet efs "followedAt" (JSON.obj []))).1,
       (followedAtFields (objGet efs "followedAt" (JSON.obj []))).2,
       objGet pfs "publicIdentifier" (JSON.str ""),
       if pyTruthy (objGet pfs "publicIdentifier" (JSON.str "")) then
         JSON.str ("https://www.linkedin.com/in/" ++
           pyStr (objGet pfs "publicIdentifier" (JSON.str "")) ++ "/")
       else JSON.str ""⟩ := by
  subst h3
  simp [follower_row_parts, h1, h2, asObjFields]

/-- `objGet` on the empty field list returns the default. -/
theorem objGet_nil (key : String) (dflt : JSON) : objGet [] key dflt = dflt := rfl

/-! ## C1 — missing-profile rows -/

/-- C1 (counterexample): in `process_existing_followers.py`'s row builder,
an element whose referenced profile is absent from the mapping and which
carries its own non-empty `entityUrn` still yields a row whose `entityUrn`
is the EMPTY string — that script has no fallback to the element. -/
theorem c1_counterexample :
    (build_follower_row_existing missing_profile_element []).map Row.entityUrn =
      some (JSON.str "") ∧
    pyIndexStr missing_profile_element "entityUrn" =
      .ok (JSON.str "urn:li:fsd_follower:42") := by decide

/-- C1 (amended): for an element (a dict) whose `followerV2.*profile`
reference is truthy and hashable but absent from the cumulative profile
mapping, both row builders produce a row with empty
firstName/lastName/headline/publicIdentifier/linkedinUrl; the
download-then-process builder takes `entityUrn` from the element itself
(non-empty when the element's `entityUrn` is non-empty), while the
process-only builder leaves `entityUrn` empty. -/
theorem c1_amended (efs : List (String × JSON)) (m : PyDict) (urn : JSON) (eu : String)
    (h1 : resolve_profile_urn (JSON.obj efs) = .ok (some urn))
    (h2 : pyTruthy urn = true) (h3 : pyHashable urn = true)
    (h4 : dictGet m urn = none)
    (h5 : objGet efs "entityUrn" (JSON.str "") = JSON.str eu)
    (h6 : eu ≠ "") :
    ((build_follower_row_complete (JSON.obj efs) m).map Row.firstName = some (JSON.str "") ∧
     (build_follower_row_complete (JSON.obj efs) m).map Row.lastName = some (JSON.str "") ∧
     (build_follower_row_complete (JSON.obj efs) m).map Row.headline = some (JSON.str "") ∧
     (build_follower_row_complete (JSON.obj efs) m).map Row.publicIdentifier = some (JSON.str "") ∧
     (build_follower_row_complete (JSON.obj efs) m).map Row.linkedinUrl = some (JSON.str "") ∧
     (build_follower_row_complete (JSON.obj efs) m).map Row.entityUrn = some (JSON.str eu) ∧
     (build_follower_row_complete (JSON.obj efs) m).map Row.entityUrn ≠ some (JSON.str "")) ∧
    ((build_follower_row_existing (JSON.obj efs) m).map Row.firstName = some (JSON.str "") ∧
     (build_follower_row_existing (JSON.obj efs) m).map Row.lastName = some (JSON.str "") ∧
     (build_follower_row_existing (JSON.obj efs) m).map Row.headline = some (JSON.str "") ∧
     (build_follower_row_existing (JSON.obj efs) m).map Row.publicIdentifier = some (JSON.str "") ∧
     (build_follower_row_existing (JSON.obj efs) m).map Row.linkedinUrl = some (JSON.str "") ∧
     (build_follower_row_existing (JSON.obj efs) m).map Row.entityUrn = some (JSON.str "")) := by
  have hres : resolve_profile (some urn) m = .ok (JSON.obj []) := by
    simp [resolve_profile, h2, h3, h4]
  have hparts := follower_row_parts_eq (m := m) h1 hres rfl
  simp only [build_follower_row_complete, build_follower_row_existing, hparts,
    Option.map_some]
  simp [row_of_parts, objGet_nil, pyTruthy, h5, h6]
  intro h
  exact absurd h (by decide)

/-- C1 (witness): the amended missing-profile theorem applied to a concrete
element carrying `entityUrn = "urn:li:fsd_follower:42"`, against the empty
profile map. -/
theorem c1_witness :
    (build_follower_row_complete missing_profile_element []).map Row.entityUrn =
      some (JSON.str "urn:li:fsd_follower:42") ∧
    (build_follower_row_existing missing_profile_element []).map Row.entityUrn =
      some (JSON.str "") := by
  have h := c1_amended
    [("followerV2", JSON.obj [("*profile", JSON.str "urn:li:fsd_profile:missing")]),
     ("followedAt", JSON.obj [("text", JSON.str "3w")]),
     ("entityUrn", JSON.str "urn:li:fsd_follower:42")]
    [] (JSON.str "urn:li:fsd_profile:missing") "urn:li:fsd_follower:42"
    (by decide) (by decide) (by decide) (by decide) (by decide) (by decide)
  exact ⟨by simpa [missing_profile_element] using h.1.2.2.2.2.2.1,
         by simpa [missing_profile_element] using h.2.2.2.2.2.2⟩

/-! ## C2 — snapshot processing order -/

/-- C2 (counterexample): sorting snapshot names by name does NOT match
numeric page order once indices span more than one digit:
`followers_page_10.json` sorts before `followers_page_2.json`, and the
default configuration does produce pages with two-digit indices
(`num_pages = 49`). -/
theorem c2_counterexample :
    sort_filenames [save_page_filename 2, save_page_filename 10] ≠
      [save_page_filename 2, save_page_filename 10] ∧
    sort_filenames [save_page_filename 2, save_page_filename 10] =
      [save_page_filename 10, save_page_filename 2] ∧
    num_pages = 49 := by decide

/-- C2 (amended): the orchestrators sort snapshot files lexicographically by
name; that order agrees with numeric page-index order only while all indices
have the same digit length (for instance the first ten pages), and with the
default configuration's 49 pages (indices 0..48) the processing order
differs from numeric page order. -/
theorem c2_amended :
    num_pages = 49 ∧
    sort_filenames ((List.range 10).map save_page_filename) =
      (List.range 10).map save_page_filename ∧
    sort_filenames ((List.range num_pages).map save_page_filename) ≠
      (List.range num_pages).map save_page_filename := by decide

/-- A successful subscript implies a positive membership test. -/
theorem pyIndexStr_to_pyInStr {c : JSON} {k : String} {v : JSON}
    (h : pyIndexStr c k = .ok v) : pyInStr k c = .ok true := by
  cases c
  case obj fields =>
    rw [pyIndexStr] at h
    cases hfind : List.find? (fun kv => kv.1 == k) fields with
    | none => rw [hfind] at h; simp at h
    | some kv =>
      have hmem := List.mem_of_find?_eq_some hfind
      have hp := List.find?_some hfind
      have hany : fields.any (fun kv => kv.1 == k) = true :=
        List.any_eq_true.mpr ⟨kv, hmem, hp⟩
      simp [pyInStr, hany]
  all_goals simp [pyIndexStr] at h

/-! ## C3 — nesting-depth selection -/

/-- C3 (counterexample): on `both_depths_page` the two-level object holds no
follower container while the one-level object holds it with elements
`[1]` — trying the depths in order and using the first that contains the
container would return `[1]`, but the extractor returns `[]`. -/
theorem c3_counterexample :
    pyIndexStr both_depths_page "data" = .ok both_depths_inner ∧
    pyInStr "data" both_depths_inner = .ok true ∧
    pyIndexStr both_depths_inner "data" = .ok (JSON.obj []) ∧
    pyInStr "organizationDashFollowersByOrganizationalPage" (JSON.obj []) = .ok false ∧
    pyInStr "organizationDashFollowersByOrganizationalPage" both_depths_inner = .ok true ∧
    container_elements both_depths_inner = JSON.arr [JSON.num 1] ∧
    extract_elements_from_page both_depths_page = JSON.arr [] := by decide

/-- C3 (amended): the extractor selects a single unwrapping depth from the
presence of `data` keys alone — two levels when `page["data"]` exists and
contains a `data` member, else one level when `page` contains `data`, else
none — and looks for the follower container only in that selected object;
when the selected object lacks the container, or the container lacks an
`elements` field, it returns the empty sequence without raising. -/
theorem c3_amended :
    (∀ page d md, pyIndexStr page "data" = .ok d →
       pyInStr "data" d = .ok true → pyIndexStr d "data" = .ok md →
       extract_elements_from_page page = container_elements md) ∧
    (∀ page d, pyIndexStr page "data" = .ok d →
       pyInStr "data" d = .ok false →
       extract_elements_from_page page = container_elements d) ∧
    (∀ page, pyInStr "data" page = .ok false →
       extract_elements_from_page page = container_elements page) ∧
    (∀ md fs, md = JSON.obj fs →
       fs.find? (fun kv => kv.1 == "organizationDashFollowersByOrganizationalPage") = none →
       container_elements md = JSON.arr []) ∧
    (∀ md fd fs2, pyIndexStr md "organizationDashFollowersByOrganizationalPage" = .ok fd →
       fd = JSON.obj fs2 →
       fs2.find? (fun kv => kv.1 == "elements") = none →
       container_elements md = JSON.arr []) := by
  refine ⟨?_, ?_, ?_, ?_, ?_⟩
  · intro page d md h1 h2 h3
    have hin := pyIndexStr_to_pyInStr h1
    simp [extract_elements_from_page, extract_elements_body, container_elements,
      hin, h1, h2, h3]
  · intro page d h1 h2
    have hin := pyIndexStr_to_pyInStr h1
    simp [extract_elements_from_page, extract_elements_body, container_elements,
      hin, h1, h2]
  · intro page h1
    simp [extract_elements_from_page, extract_elements_body, container_elements, h1]
  · intro md fs hmd hfind
    subst hmd
    have hany : fs.any (fun kv => kv.1 == "organizationDashFollowersByOrganizationalPage") = false := by
      rw [List.any_eq_false]
      intro kv hkv
      exact List.find?_eq_none.mp hfind kv hkv
    have hin0 : pyInStr "organizationDashFollowersByOrganizationalPage" (JSON.obj fs) =
        .ok false := by simp [pyInStr, hany]
    simp [container_elements, container_elements_body, hin0]
  · intro md fd fs2 h1 hfd hfind
    subst hfd
    have hin := pyIndexStr_to_pyInStr h1
    have hany : fs2.any (fun kv => kv.1 == "elements") = false := by
      rw [List.any_eq_false]
      intro kv hkv
      exact List.find?_eq_none.mp hfind kv hkv
    have hin2 : pyInStr "elements" (JSON.obj fs2) = .ok false := by simp [pyInStr, hany]
    simp [container_elements, container_elements_body, hin, h1, hin2]

/-- C3 (witness): the amended depth-selection theorem applied at concrete
snapshots: `both_depths_page` selects the two-level object `{}` whose
container lookup yields `[]`, and an unwrapped snapshot with the container
yields its elements. -/
theorem c3_witness :
    extract_elements_from_page both_depths_page = container_elements (JSON.obj []) ∧
    extract_elements_from_page fallback_demo_page = container_elements fallback_demo_page ∧
    container_elements (JSON.obj []) = JSON.arr [] := by
  refine ⟨?_, ?_, ?_⟩
  · exact c3_amended.1 both_depths_page both_depths_inner (JSON.obj [])
      (by decide) (by decide) (by decide)
  · exact c3_amended.2.2.1 fallback_demo_page (by decide)
  · exact c3_amended.2.2.2.1 (JSON.obj []) [] rfl (by decide)

/-! ## C4 — equivalence of the two reducers -/

/-- The two row builders agree on every column except `entityUrn`, and fail
together. -/
theorem build_row_core_eq (e : JSON) (m : PyDict) :
    (build_follower_row_complete e m).map row_core =
      (build_follower_row_existing e m).map row_core := by
  cases h : follower_row_parts e m <;>
    simp [build_follower_row_complete, build_follower_row_existing, h,
      row_core, row_of_parts]

/-- The inner row loops of the two scripts produce rows that agree on every
column except `entityUrn`. -/
theorem page_rows_fold_core (p : PyDict) (els : List JSON) :
    (page_rows_fold build_follower_row_complete p els).1.map row_core =
      (page_rows_fold build_follower_row_existing p els).1.map row_core := by
  induction els with
  | nil => rfl
  | cons e rest ih =>
    have hbe := build_row_core_eq e p
    cases hC : build_follower_row_complete e p with
    | none =>
      cases hE : build_follower_row_existing e p with
      | none => simp [page_rows_fold, hC, hE, ih]
      | some r => rw [hC, hE] at hbe; simp at hbe
    | some r₁ =>
      cases hE : build_follower_row_existing e p with
      | none => rw [hC, hE] at hbe; simp at hbe
      | some r₂ =>
        rw [hC, hE] at hbe
        simp at hbe
        simp [page_rows_fold, hC, hE, ih, hbe]

/-- One page-loop step with either builder: same profiles, rows agreeing on
all columns but `entityUrn`, and identical crash behaviour. -/
theorem step_core_congr (f : PageFile) (s₁ s₂ : PState)
    (hp : s₁.all_profiles = s₂.all_profiles)
    (hr : s₁.all_rows.map row_core = s₂.all_rows.map row_core) :
    (process_page_step build_follower_row_complete s₁ f).map
        (fun t => (t.all_rows.map row_core, t.all_profiles)) =
      (process_page_step build_follower_row_existing s₂ f).map
        (fun t => (t.all_rows.map row_core, t.all_profiles)) := by
  obtain ⟨name, content⟩ := f
  cases content with
  | error msg => simp [process_page_step, Except.map, hp, hr]
  | ok page =>
    cases hpm : extract_profiles_from_page page with
    | error e => simp [process_page_step, Except.map, hpm]
    | ok pm =>
      cases hit : pyIter (extract_elements_from_page page) with
      | error e => simp [process_page_step, Except.map, hpm, hit]
      | ok elements =>
        simp [process_page_step, Except.map, hpm, hit, hp, hr, page_rows_fold_core]

/-- The whole page loop with either builder: same profiles, rows agreeing
on all columns but `entityUrn`, and identical crash behaviour. -/
theorem loop_core_congr (files : List PageFile) :
    ∀ (s₁ s₂ : PState), s₁.all_profiles = s₂.all_profiles →
      s₁.all_rows.map row_core = s₂.all_rows.map row_core →
      (process_pages_loop build_follower_row_complete s₁ files).map
          (fun t => (t.all_rows.map row_core, t.all_profiles)) =
        (process_pages_loop build_follower_row_existing s₂ files).map
          (fun t => (t.all_rows.map row_core, t.all_profiles)) := by
  induction files with
  | nil =>
    intro s₁ s₂ hp hr
    simp [process_pages_loop, Except.map, hp, hr]
  | cons f rest ih =>
    intro s₁ s₂ hp hr
    have hstep := step_core_congr f s₁ s₂ hp hr
    cases h₁ : process_page_step build_follower_row_complete s₁ f with
    | error e =>
      cases h₂ : process_page_step build_follower_row_existing s₂ f with
      | error e₂ => simp [process_pages_loop, h₁, h₂]
      | ok t₂ => rw [h₁, h₂] at hstep; simp [Except.map] at hstep
    | ok t₁ =>
      cases h₂ : process_page_step build_follower_row_existing s₂ f with
      | error e₂ => rw [h₁, h₂] at hstep; simp [Except.map] at hstep
      | ok t₂ =>
        rw [h₁, h₂] at hstep
        simp [Except.map] at hstep
        simpa [process_pages_loop, h₁, h₂] using ih t₁ t₂ hstep.2 hstep.1

/-- C4 (counterexample): the two entry points' reducers (and their row
builders) do NOT produce the same rows: on a snapshot whose element
references a missing profile, the download-then-process reducer emits
`entityUrn = "urn:li:fsd_follower:42"` while the process-only reducer
emits an empty `entityUrn`. -/
theorem c4_counterexample :
    build_follower_row_complete missing_profile_element [] ≠
      build_follower_row_existing missing_profile_element [] ∧
    (process_downloaded_pages fallback_demo_files).map (fun p => p.2) ≠
      (process_existing_pages fallback_demo_files).map (fun p => p.2) := by
  constructor <;> decide

/-- C4 (amended): the two reducers agree on everything except the
`entityUrn` column — the row builders return rows identical on all other
columns (failing together), and on every snapshot batch the two entry
points produce identical row sequences once the `entityUrn` column is
disregarded, with identical crash behaviour. -/
theorem c4_amended :
    (∀ e m, (build_follower_row_complete e m).map row_core =
       (build_follower_row_existing e m).map row_core) ∧
    (∀ files, (process_downloaded_pages files).map (fun p => p.2.map row_core) =
       (process_existing_pages files).map (fun p => p.2.map row_core)) := by
  refine ⟨build_row_core_eq, ?_⟩
  intro files
  by_cases hemp : (sort_page_files files).isEmpty
  · simp [process_downloaded_pages, process_existing_pages, hemp, Except.map]
  · have h := loop_core_congr (sort_page_files files)
      ⟨[], [], ["Processing " ++ toString (sort_page_files files).length ++
        " downloaded page files..."]⟩
      ⟨[], [], ["Found " ++ toString (sort_page_files files).length ++
        " page files to process..."]⟩ rfl rfl
    cases h₁ : process_pages_loop build_follower_row_complete
        ⟨[], [], ["Processing " ++ toString (sort_page_files files).length ++
          " downloaded page files..."]⟩ (sort_page_files files) with
    | error e =>
      cases h₂ : process_pages_loop build_follower_row_existing
          ⟨[], [], ["Found " ++ toString (sort_page_files files).length ++
            " page files to process..."]⟩ (sort_page_files files) with
      | error e₂ => simp [process_downloaded_pages, process_existing_pages, hemp, h₁, h₂, Except.map]
      | ok t₂ => rw [h₁, h₂] at h; simp [Except.map] at h
    | ok t₁ =>
      cases h₂ : process_pages_loop build_follower_row_existing
          ⟨[], [], ["Found " ++ toString (sort_page_files files).length ++
            " page files to process..."]⟩ (sort_page_files files) with
      | error e₂ => rw [h₁, h₂] at h; simp [Except.map] at h
      | ok t₂ =>
        rw [h₁, h₂] at h
        simp [Except.map] at h
        simp [process_downloaded_pages, process_existing_pages, hemp, h₁, h₂,
          Except.map, h.1]

/-! ## C7 and C10 — row-builder field normalization -/

/-- Inversion of a successful `follower_row_parts` run: the intermediate
resolutions it must have taken and the resulting field values. -/
theorem follower_row_parts_inv {element : JSON} {m : PyDict} {p : RowParts}
    (h : follower_row_parts element m = .ok p) :
    ∃ u profile, resolve_profile_urn element = .ok u ∧
      resolve_profile u m = .ok profile ∧
      asObjFields element = .ok p.elementFields ∧
      asObjFields profile = .ok p.profileFields ∧
      p.followedAtText =
        (followedAtFields (objGet p.elementFields "followedAt" (JSON.obj []))).1 ∧
      p.followedAtAccessibilityText =
        (followedAtFields (objGet p.elementFields "followedAt" (JSON.obj []))).2 ∧
      p.publicIdentifier = objGet p.profileFields "publicIdentifier" (JSON.str "") ∧
      p.linkedinUrl = (if pyTruthy p.publicIdentifier then
          JSON.str ("https://www.linkedin.com/in/" ++ pyStr p.publicIdentifier ++ "/")
        else JSON.str "") := by
  rw [follower_row_parts] at h
  split at h
  · simp at h
  next u hu =>
    split at h
    · simp at h
    next profile hprof =>
      split at h
      · simp at h
      next efs hefs =>
        split at h
        · simp at h
        next pfs hpfs =>
          simp only [Except.ok.injEq] at h
          subst h
          exact ⟨u, profile, hu, hprof, hefs, hpfs, rfl, rfl, rfl, rfl⟩

/-- Inversion of a successful `build_follower_row` run of
`process_existing_followers.py`. -/
theorem build_existing_inv {element : JSON} {m : PyDict} {r : Row}
    (hb : build_follower_row_existing element m = some r) :
    ∃ p, follower_row_parts element m = .ok p ∧
      r = row_of_parts p (objGet p.profileFields "entityUrn" (JSON.str "")) := by
  rw [build_follower_row_existing] at hb
  split at hb
  next p hp => exact ⟨p, hp, by simpa using hb.symm⟩
  · simp at hb

/-- C7 (confirmed): in every successfully built row, a structured
`followedAt` object contributes its `text` / `accessibilityText` sub-fields
with independent empty-string defaults; a truthy primitive `followedAt` is
stringified into the text column with empty accessibility text; an absent or
falsy `followedAt` leaves both columns empty. -/
theorem c7_followed_at (efs : List (String × JSON)) (m : PyDict) (r : Row)
    (hb : build_follower_row_existing (JSON.obj efs) m = some r) :
    (∀ ffs, objGet efs "followedAt" (JSON.obj []) = JSON.obj ffs →
       r.followedAtText = objGet ffs "text" (JSON.str "") ∧
       r.followedAtAccessibilityText = objGet ffs "accessibilityText" (JSON.str "")) ∧
    (∀ v, objGet efs "followedAt" (JSON.obj []) = v →
       ((∃ n, v = JSON.num n) ∨ (∃ sv, v = JSON.str sv) ∨ (∃ b, v = JSON.bool b)) →
       pyTruthy v = true →
       r.followedAtText = JSON.str (pyStr v) ∧
       r.followedAtAccessibilityText = JSON.str "") ∧
    (∀ v, objGet efs "followedAt" (JSON.obj []) = v → pyTruthy v = false →
       r.followedAtText = JSON.str "" ∧ r.followedAtAccessibilityText = JSON.str "") := by
  obtain ⟨p, hp, hr⟩ := build_existing_inv hb
  obtain ⟨u, profile, hu, hprof, hefs, hpfs, hft, hfa, hpid, hurl⟩ :=
    follower_row_parts_inv hp
  have hef : p.elementFields = efs := by
    simp [asObjFields] at hefs
    exact hefs.symm
  subst hr
  rw [hef] at hft hfa
  refine ⟨?_, ?_, ?_⟩
  · intro ffs hv
    constructor
    · show p.followedAtText = _
      rw [hft, hv]
      simp [followedAtFields]
    · show p.followedAtAccessibilityText = _
      rw [hfa, hv]
      simp [followedAtFields]
  · intro v hv hprim htr
    constructor
    · show p.followedAtText = _
      rw [hft, hv]
      rcases hprim with ⟨n, rfl⟩ | ⟨sv, rfl⟩ | ⟨b, rfl⟩ <;> simp [followedAtFields, htr]
    · show p.followedAtAccessibilityText = _
      rw [hfa, hv]
      rcases hprim with ⟨n, rfl⟩ | ⟨sv, rfl⟩ | ⟨b, rfl⟩ <;> simp [followedAtFields]
  · intro v hv hfalsy
    constructor
    · show p.followedAtText = _
      rw [hft, hv]
      cases v with
      | obj fs =>
        have : fs = [] := by
          simpa [pyTruthy, List.isEmpty_iff] using hfalsy
        subst this
        simp [followedAtFields, objGet_nil]
      | _ => simp [followedAtFields, hfalsy]
    · show p.followedAtAccessibilityText = _
      rw [hfa, hv]
      cases v with
      | obj fs =>
        have : fs = [] := by
          simpa [pyTruthy, List.isEmpty_iff] using hfalsy
        subst this
        simp [followedAtFields, objGet_nil]
      | _ => simp [followedAtFields]

/-- C7 (witness): the `followedAt` normalization applied to the concrete
`demo_element`, whose structured `followedAt` carries both sub-fields. -/
theorem c7_witness :
    (build_follower_row_existing demo_element []).map Row.followedAtText =
      some (JSON.str "3w") ∧
    (build_follower_row_existing demo_element []).map Row.followedAtAccessibilityText =
      some (JSON.str "3 weeks ago") := by
  cases hb : build_follower_row_existing demo_element [] with
  | none => exact absurd hb (by decide)
  | some r =>
    have hb' : build_follower_row_existing (JSON.obj
        [("followerV2", JSON.obj [("*profile", JSON.str "urn:li:fsd_profile:p1")]),
         ("followedAt", JSON.obj [("text", JSON.str "3w"),
                                  ("accessibilityText", JSON.str "3 weeks ago")])]) [] =
        some r := hb
    have h := (c7_followed_at _ [] r hb').1
      [("text", JSON.str "3w"), ("accessibilityText", JSON.str "3 weeks ago")] (by decide)
    refine ⟨?_, ?_⟩
    · show some r.followedAtText = some (JSON.str "3w")
      rw [h.1]
      decide
    · show some r.followedAtAccessibilityText = some (JSON.str "3 weeks ago")
      rw [h.2]
      decide

/-- C10 (confirmed): an element whose `followerV2.*profile` reference is
present but falsy (empty string or null) triggers no profile-map lookup —
the built row does not depend on the profile map at all — and carries the
same profile-derived columns (all empty) as an element with no reference,
in both scripts' row builders. -/
theorem c10_falsy_profile_reference (efs efs₂ : List (String × JSON))
    (m m₂ : PyDict) (urn : JSON)
    (h1 : resolve_profile_urn (JSON.obj efs) = .ok (some urn))
    (h2 : urn = JSON.str "" ∨ urn = JSON.null)
    (habs : resolve_profile_urn (JSON.obj efs₂) = .ok none)
    (hfa : objGet efs₂ "followedAt" (JSON.obj []) = objGet efs "followedAt" (JSON.obj []))
    (heu : objGet efs₂ "entityUrn" (JSON.str "") = objGet efs "entityUrn" (JSON.str "")) :
    build_follower_row_existing (JSON.obj efs) m =
      build_follower_row_existing (JSON.obj efs₂) m₂ ∧
    build_follower_row_complete (JSON.obj efs) m =
      build_follower_row_complete (JSON.obj efs₂) m₂ ∧
    (build_follower_row_existing (JSON.obj efs) m).map Row.firstName = some (JSON.str "") ∧
    (build_follower_row_existing (JSON.obj efs) m).map Row.lastName = some (JSON.str "") ∧
    (build_follower_row_existing (JSON.obj efs) m).map Row.headline = some (JSON.str "") ∧
    (build_follower_row_existing (JSON.obj efs) m).map Row.publicIdentifier = some (JSON.str "") ∧
    (build_follower_row_existing (JSON.obj efs) m).map Row.linkedinUrl = some (JSON.str "") := by
  have htr : pyTruthy urn = false := by
    rcases h2 with rfl | rfl <;> decide
  have hres1 : resolve_profile (some urn) m = .ok (JSON.obj []) := by
    simp [resolve_profile, htr]
  have hres2 : resolve_profile none m₂ = .ok (JSON.obj []) := by
    simp [resolve_profile]
  have hparts1 := follower_row_parts_eq (m := m) h1 hres1 rfl
  have hparts2 := follower_row_parts_eq (m := m₂) habs hres2 rfl
  refine ⟨?_, ?_, ?_⟩
  · simp [build_follower_row_existing, hparts1, hparts2, row_of_parts, hfa]
  · simp [build_follower_row_complete, hparts1, hparts2, row_of_parts,
      objGet_nil, hfa, heu]
  · simp [build_follower_row_existing, hparts1, row_of_parts, objGet_nil, pyTruthy]
    intro h
    exact absurd h (by decide)

/-- C10 (witness): a concrete element with `*profile = ""` against a
profile map that DOES contain the key `""` still builds the same row as the
reference-free empty element against the empty map, with an empty
firstName. -/
theorem c10_witness :
    build_follower_row_existing
        (JSON.obj [("followerV2", JSON.obj [("*profile", JSON.str "")])])
        [(JSON.str "", JSON.obj [("firstName", JSON.str "Spoof"),
                                 ("publicIdentifier", JSON.str "spoof")])] =
      build_follower_row_existing (JSON.obj []) [] ∧
    (build_follower_row_existing
        (JSON.obj [("followerV2", JSON.obj [("*profile", JSON.str "")])])
        [(JSON.str "", JSON.obj [("firstName", JSON.str "Spoof"),
                                 ("publicIdentifier", JSON.str "spoof")])]).map
        Row.firstName = some (JSON.str "") := by
  have h := c10_falsy_profile_reference
    [("followerV2", JSON.obj [("*profile", JSON.str "")])] []
    [(JSON.str "", JSON.obj [("firstName", JSON.str "Spoof"),
                             ("publicIdentifier", JSON.str "spoof")])] []
    (JSON.str "")
    (by decide) (Or.inl rfl) (by decide) (by decide) (by decide)
  exact ⟨h.1, h.2.2.1⟩

/-! ## C8 — recovery from empty and unreadable snapshots -/

/-- One page-loop step reads the state's diagnostics log only to append to
it: the observable outcome is log-independent. -/
theorem step_log_irrel (build : JSON → PyDict → Option Row) (f : PageFile)
    (rows : List Row) (profiles : PyDict) (l₁ l₂ : List String) :
    (process_page_step build ⟨rows, profiles, l₁⟩ f).map pstate_core =
      (process_page_step build ⟨rows, profiles, l₂⟩ f).map pstate_core := by
  obtain ⟨name, content⟩ := f
  cases content with
  | error msg => simp [process_page_step, Except.map, pstate_core]
  | ok page =>
    cases hpm : extract_profiles_from_page page with
    | error e => simp [process_page_step, Except.map, hpm]
    | ok pm =>
      cases hit : pyIter (extract_elements_from_page page) with
      | error e => simp [process_page_step, Except.map, hpm, hit]
      | ok elements => simp [process_page_step, Except.map, pstate_core, hpm, hit]

/-- The whole page loop's observable outcome is independent of the
diagnostics accumulated so far. -/
theorem loop_log_irrel (build : JSON → PyDict → Option Row) (files : List PageFile) :
    ∀ (rows : List Row) (profiles : PyDict) (l₁ l₂ : List String),
      (process_pages_loop build ⟨rows, profiles, l₁⟩ files).map pstate_core =
        (process_pages_loop build ⟨rows, profiles, l₂⟩ files).map pstate_core := by
  induction files with
  | nil =>
    intro rows profiles l₁ l₂
    simp [process_pages_loop, Except.map, pstate_core]
  | cons f rest ih =>
    intro rows profiles l₁ l₂
    have hstep := step_log_irrel build f rows profiles l₁ l₂
    cases h₁ : process_page_step build ⟨rows, profiles, l₁⟩ f with
    | error e =>
      cases h₂ : process_page_step build ⟨rows, profiles, l₂⟩ f with
      | error e₂ => simp [process_pages_loop, h₁, h₂]
      | ok t₂ => rw [h₁, h₂] at hstep; simp [Except.map] at hstep
    | ok t₁ =>
      cases h₂ : process_page_step build ⟨rows, profiles, l₂⟩ f with
      | error e₂ => rw [h₁, h₂] at hstep; simp [Except.map] at hstep
      | ok t₂ =>
        rw [h₁, h₂] at hstep
        simp [Except.map, pstate_core] at hstep
        obtain ⟨r₁, p₁, l₁'⟩ := t₁
        obtain ⟨r₂, p₂, l₂'⟩ := t₂
        obtain ⟨hr, hp⟩ := hstep
        subst hr hp
        simpa [process_pages_loop, h₁, h₂] using ih r₁ p₁ l₁' l₂'

/-- Stepping over a snapshot that parses to the empty JSON object only
appends diagnostics: rows and profiles are unchanged. -/
theorem step_empty_object (build : JSON → PyDict → Option Row) (name : String)
    (s : PState) :
    process_page_step build s (name, Except.ok (JSON.obj [])) =
      .ok { s with log := s.log ++
        ["Processing " ++ name ++ "...", "  Found 0 profiles",
         "  Found 0 follower elements"] } := by
  have h1 : extract_profiles_from_page (JSON.obj []) = .ok [] := by decide
  have h2 : pyIter (extract_elements_from_page (JSON.obj [])) = .ok [] := by decide
  have h3 : extract_elements_body (JSON.obj []) = .ok (JSON.arr []) := by decide
  simp [process_page_step, h1, h2, h3, dictUpdate, page_rows_fold]
  exact ⟨by decide, by decide⟩

/-- Stepping over an unreadable or unparseable snapshot only appends
diagnostics: rows and profiles are unchanged (`continue`). -/
theorem step_unreadable (build : JSON → PyDict → Option Row) (name msg : String)
    (s : PState) :
    process_page_step build s (name, Except.error msg) =
      .ok { s with log := s.log ++
        ["Processing " ++ name ++ "...", "Error reading " ++ name ++ ": " ++ msg] } := by
  simp [process_page_step]

/-- C8 (confirmed): a snapshot parsing to the empty object yields zero
profiles and zero elements without raising and is observably a no-op for
the rest of the batch, and unreadable/unparseable snapshots are skipped:
the loop's observable outcome over any batch equals its outcome over just
the parseable files. -/
theorem c8_error_recovery :
    (extract_profiles_from_page (JSON.obj []) = .ok [] ∧
     extract_elements_from_page (JSON.obj []) = JSON.arr []) ∧
    (∀ (s : PState) (name : String) (rest : List PageFile),
      (process_pages_loop build_follower_row_existing s
          ((name, Except.ok (JSON.obj [])) :: rest)).map pstate_core =
        (process_pages_loop build_follower_row_existing s rest).map pstate_core) ∧
    (∀ (s : PState) (files : List PageFile),
      (process_pages_loop build_follower_row_existing s files).map pstate_core =
        (process_pages_loop build_follower_row_existing s
          (files.filter file_parseable)).map pstate_core) := by
  refine ⟨⟨by decide, by decide⟩, ?_, ?_⟩
  · intro s name rest
    obtain ⟨rows, profiles, log⟩ := s
    rw [process_pages_loop, step_empty_object]
    exact loop_log_irrel build_follower_row_existing rest rows profiles _ _
  · intro s files
    induction files generalizing s with
    | nil => rfl
    | cons f rest ih =>
      obtain ⟨name, content⟩ := f
      cases content with
      | error msg =>
        have hfp : file_parseable (name, Except.error msg) = false := rfl
        rw [List.filter_cons_of_neg (by simp [hfp])]
        obtain ⟨rows, profiles, log⟩ := s
        rw [process_pages_loop, step_unreadable]
        dsimp only
        exact (loop_log_irrel build_follower_row_existing rest rows profiles _ _).trans
          (ih ⟨rows, profiles, log⟩)
      | ok page =>
        have hfp : file_parseable (name, Except.ok page) = true := rfl
        rw [List.filter_cons_of_pos (by simp [hfp])]
        cases hstep : process_page_step build_follower_row_existing s (name, Except.ok page) with
        | error e => simp [process_pages_loop, hstep]
        | ok t => simpa [process_pages_loop, hstep] using ih t

/-! ## C9 — empty-input and empty-result reporting -/

/-- Every diagnostic the inner row loop emits is the row-builder error
message. -/
theorem page_rows_fold_log (build : JSON → PyDict → Option Row) (p : PyDict) :
    ∀ els msg, msg ∈ (page_rows_fold build p els).2 → msg = "Error building row" := by
  intro els
  induction els with
  | nil => simp [page_rows_fold]
  | cons e rest ih =>
    intro msg hmsg
    cases hb : build e p with
    | some r =>
      rw [page_rows_fold, hb] at hmsg
      exact ih msg hmsg
    | none =>
      rw [page_rows_fold, hb] at hmsg
      rw [List.mem_cons] at hmsg
      rcases hmsg with h | h
      · exact h
      · exact ih msg h


/-- Inversion of a successful loop step over a parseable snapshot: profile
extraction and element iteration succeeded, and the new state is the old
one extended with that page's contribution. -/
theorem step_ok_inversion (build : JSON → PyDict → Option Row) (s : PState)
    (name : String) (page : JSON) (t : PState)
    (h : process_page_step build s (name, Except.ok page) = .ok t) :
    ∃ pm elements, extract_profiles_from_page page = .ok pm ∧
      pyIter (extract_elements_from_page page) = .ok elements ∧
      t = { all_rows := s.all_rows ++
              (page_rows_fold build (dictUpdate s.all_profiles pm) elements).1
          , all_profiles := dictUpdate s.all_profiles pm
          , log := s.log ++ ["Processing " ++ name ++ "..."]
              ++ ["  Found " ++ toString pm.length ++ " profiles"]
              ++ (match extract_elements_body page with
                  | .ok _ => []
                  | .error _ => ["Error extracting elements"])
              ++ ["  Found " ++ toString elements.length ++ " follower elements"]
              ++ (page_rows_fold build (dictUpdate s.all_profiles pm) elements).2 } := by
  rw [process_page_step] at h
  dsimp only at h
  split at h
  · exact absurd h (by simp)
  next pm hpm =>
    split at h
    · exact absurd h (by simp)
    next elements hit =>
      simp only [Except.ok.injEq] at h
      exact ⟨pm, elements, hpm, hit, h.symm⟩

/-- No diagnostic a loop step appends starts with the letter `N` (they
start with `Processing`, `Error`, or an indented `Found`). -/
theorem step_log_mem (build : JSON → PyDict → Option Row) (s : PState) (f : PageFile)
    (t : PState) (h : process_page_step build s f = .ok t) :
    ∀ msg ∈ t.log, msg ∈ s.log ∨ msg.data.head? ≠ some 'N' := by
  intro msg hmsg
  obtain ⟨name, content⟩ := f
  cases content with
  | error m =>
    rw [step_unreadable] at h
    simp only [Except.ok.injEq] at h
    subst h
    simp only [List.mem_append, List.mem_cons, List.not_mem_nil, or_false] at hmsg
    rcases hmsg with hm | rfl | rfl
    · exact Or.inl hm
    · right
      simp [String.data_append]
    · right
      simp [String.data_append]
  | ok page =>
    obtain ⟨pm, elements, hpm, hit, ht⟩ := step_ok_inversion build s name page t h
    subst ht
    simp only [List.mem_append, List.mem_cons, List.not_mem_nil, or_false] at hmsg
    rcases hmsg with ((((hm | rfl) | rfl) | hm) | rfl) | hm
    · exact Or.inl hm
    · right
      simp [String.data_append]
    · right
      simp [String.data_append]
    · right
      rcases hex : extract_elements_body page with e | v <;> rw [hex] at hm
      · simp at hm
        subst hm
        decide
      · simp at hm
    · right
      simp [String.data_append]
    · right
      rw [page_rows_fold_log build _ _ msg hm]
      decide

/-- No diagnostic the page loop appends to the initial log starts with the
letter `N`. -/
theorem loop_log_mem (build : JSON → PyDict → Option Row) :
    ∀ (files : List PageFile) (s s' : PState),
      process_pages_loop build s files = .ok s' →
      ∀ msg ∈ s'.log, msg ∈ s.log ∨ msg.data.head? ≠ some 'N' := by
  intro files
  induction files with
  | nil =>
    intro s s' h msg hmsg
    rw [process_pages_loop] at h
    simp only [Except.ok.injEq] at h
    subst h
    exact Or.inl hmsg
  | cons f rest ih =>
    intro s s' h msg hmsg
    rw [process_pages_loop] at h
    split at h
    · exact absurd h (by simp)
    next t hstep =>
      rcases ih t s' h msg hmsg with hm | hm
      · exact step_log_mem build s f t hstep msg hm
      · exact Or.inr hm

/-- `sortBy` preserves the length of the list. -/
theorem insertSorted_length {α : Type} (le : α → α → Bool) (x : α) :
    ∀ l, (insertSorted le x l).length = l.length + 1 := by
  intro l
  induction l with
  | nil => rfl
  | cons y ys ih =>
    rw [insertSorted]
    by_cases hle : le x y = true
    · simp [hle]
    · simp [hle, ih]

/-- Python's `sorted` returns a list of the same length. -/
theorem sortBy_length {α : Type} (le : α → α → Bool) :
    ∀ l : List α, (sortBy le l).length = l.length := by
  intro l
  induction l with
  | nil => rfl
  | cons x xs ih =>
    rw [sortBy, insertSorted_length, ih]
    rfl

/-- C9 (confirmed): with zero snapshot files the process-only entry point
reports the no-input condition and returns no rows; with snapshot files
present it never emits the no-input diagnostic and always reports the
produced row count (reading `0` when no elements were found) — a distinct
condition; and with zero rows to export `write_csv` writes no file and
reports failure. -/
theorem c9_empty_outcomes :
    process_existing_pages [] = .ok ([no_files_message,
      "Make sure you have downloaded follower page files first."], []) ∧
    (∀ (files : List PageFile) (log : List String) (rows : List Row),
      files ≠ [] → process_existing_pages files = .ok (log, rows) →
      no_files_message ∉ log ∧
      ("Total follower rows: " ++ toString rows.length) ∈ log) ∧
    write_csv [] = (false, none) := by
  refine ⟨rfl, ?_, rfl⟩
  intro files log rows hne h
  rw [process_existing_pages] at h
  have hempty : (sort_page_files files).isEmpty = false := by
    cases files with
    | nil => exact absurd rfl hne
    | cons f fs =>
      have hlen : (sort_page_files (f :: fs)).length = fs.length + 1 := by
        rw [sort_page_files, sortBy_length]
        rfl
      cases hsf : sort_page_files (f :: fs) with
      | nil => rw [hsf] at hlen; simp at hlen
      | cons a as => simp [List.isEmpty]
  simp only [hempty, Bool.false_eq_true, if_false] at h
  split at h
  · exact absurd h (by simp)
  next st hloop =>
    simp only [Except.ok.injEq, Prod.mk.injEq] at h
    obtain ⟨hlog, hrows⟩ := h
    subst hlog
    subst hrows
    constructor
    · intro hmem
      rw [List.mem_append] at hmem
      rcases hmem with hm | hm
      · rcases loop_log_mem _ _ _ _ hloop _ hm with hinit | hhead
        · simp only [List.mem_singleton] at hinit
          have hc := congrArg (fun s : String => s.data.head?) hinit
          simp [no_files_message, String.data_append] at hc
        · exact hhead (by decide)
      · simp only [List.mem_cons, List.not_mem_nil, or_false] at hm
        rcases hm with hm | hm <;>
          · have hc := congrArg (fun s : String => s.data.head?) hm
            simp [no_files_message, String.data_append] at hc
    · exact List.mem_append_right _ (by simp)

/-- C9 (witness): a batch of one empty-object snapshot runs to completion
with zero rows, never emits the no-input diagnostic, and reports
`Total follower rows: 0`. -/
theorem c9_witness :
    process_existing_pages empty_object_files = .ok (empty_object_log, []) ∧
    no_files_message ∉ empty_object_log ∧
    ("Total follower rows: " ++ toString ([] : List Row).length) ∈ empty_object_log := by
  have hp : process_existing_pages empty_object_files = .ok (empty_object_log, []) := by rfl
  have h := c9_empty_outcomes.2.1 empty_object_files empty_object_log []
    (by decide) hp
  exact ⟨hp, h.1, h.2⟩

/-! ## C6 — cumulative profile-map invariant -/

/-- Lookup after overwriting in place. -/
theorem dictGet_map_overwrite (d : PyDict) (k v k' : JSON) :
    dictGet (d.map (fun kv => if kv.1 = k then (k, v) else kv)) k' =
      (if k' = k then (if dictHasKey d k then some v else none) else dictGet d k') := by
  induction d with
  | nil => by_cases h : k' = k <;> simp [dictGet, dictHasKey, h]
  | cons kv rest ih =>
    obtain ⟨a, b⟩ := kv
    rw [List.map_cons]
    by_cases hk : a = k
    · subst hk
      by_cases hk' : k' = a
      · subst hk'
        simp [dictGet, dictHasKey]
      · have hka : ¬ a = k' := fun h => hk' h.symm
        simp only [if_pos rfl, dictGet, dictHasKey, hka, if_false, ih, hk']
        simp [hka, hk']
    · by_cases hk' : a = k'
      · subst hk'
        simp [dictGet, dictHasKey, hk, fun h => hk (h : a = k)]
      · have hk'2 : ¬ k' = a := fun h => hk' h.symm
        simp only [if_neg hk, dictGet, dictHasKey, hk', if_false, ih]
        by_cases hkk : k' = k
        · simp [hkk, hk]
        · simp [hkk, hk']

/-- `dictHasKey` agrees with the `any`-test `dictSet` uses. -/
theorem dictHasKey_eq_any (d : PyDict) (k : JSON) :
    dictHasKey d k = d.any (fun kv => decide (kv.1 = k)) := by
  induction d with
  | nil => rfl
  | cons kv rest ih => rw [dictHasKey, List.any_cons, ih]

/-- Lookup distributes over list append. -/
theorem dictGet_append (d e : PyDict) (k : JSON) :
    dictGet (d ++ e) k =
      (match dictGet d k with | some v => some v | none => dictGet e k) := by
  induction d with
  | nil => rfl
  | cons kv rest ih =>
    rw [List.cons_append, dictGet, dictGet]
    by_cases hh : kv.1 = k
    · rw [if_pos hh, if_pos hh]
    · rw [if_neg hh, if_neg hh, ih]

/-- A key that is not present looks up to `none`. -/
theorem dictGet_none_of_not_hasKey (d : PyDict) (k : JSON)
    (h : dictHasKey d k = false) : dictGet d k = none := by
  induction d with
  | nil => rfl
  | cons kv rest ih =>
    rw [dictHasKey, Bool.or_eq_false_iff] at h
    rw [dictGet, if_neg (by simpa using h.1)]
    exact ih h.2

/-- Lookup after a Python `d[k] = v` assignment. -/
theorem dictGet_dictSet (d : PyDict) (k v k' : JSON) :
    dictGet (dictSet d k v) k' = if k' = k then some v else dictGet d k' := by
  rw [dictSet, ← dictHasKey_eq_any]
  by_cases hany : dictHasKey d k = true
  · rw [if_pos hany, dictGet_map_overwrite, hany]
    simp
  · rw [if_neg hany, dictGet_append]
    have hno : dictGet d k = none :=
      dictGet_none_of_not_hasKey d k (by simpa using hany)
    by_cases hk' : k' = k
    · subst hk'
      rw [hno, if_pos rfl]
      simp [dictGet]
    · rw [if_neg hk']
      cases hd : dictGet d k' with
      | some w => rfl
      | none =>
        simp only []
        rw [dictGet, if_neg (fun h : k = k' => hk' h.symm)]
        rfl

/-- Key membership is definedness of lookup. -/
theorem dictHasKey_eq_isSome (d : PyDict) (k : JSON) :
    dictHasKey d k = (dictGet d k).isSome := by
  induction d with
  | nil => rfl
  | cons kv rest ih =>
    rw [dictHasKey, dictGet]
    by_cases hh : kv.1 = k
    · simp [hh]
    · simp [hh, ih]

/-- Key membership after a Python `d[k] = v` assignment. -/
theorem dictHasKey_dictSet (d : PyDict) (k v k' : JSON) :
    dictHasKey (dictSet d k v) k' = (decide (k' = k) || dictHasKey d k') := by
  rw [dictHasKey_eq_isSome, dictGet_dictSet, dictHasKey_eq_isSome]
  by_cases hk' : k' = k <;> simp [hk']

/-- A defined lookup means the key occurs among the dict's keys. -/
theorem dictGet_isSome_mem (d : PyDict) (k : JSON)
    (h : (dictGet d k).isSome = true) : k ∈ d.map Prod.fst := by
  induction d with
  | nil => simp [dictGet] at h
  | cons kv rest ih =>
    rw [dictGet] at h
    by_cases hh : kv.1 = k
    · rw [List.map_cons, hh]
      exact List.mem_cons_self _ _
    · rw [if_neg hh] at h
      rw [List.map_cons]
      exact List.mem_cons_of_mem _ (ih h)

/-- Key membership after a Python `d.update(u)`. -/
theorem dictHasKey_dictUpdate (u : PyDict) :
    ∀ (d : PyDict) (k : JSON),
      dictHasKey (dictUpdate d u) k = (dictHasKey d k || dictHasKey u k) := by
  induction u with
  | nil =>
    intro d k
    simp [dictUpdate, dictHasKey]
  | cons kv rest ih =>
    intro d k
    rw [show dictUpdate d (kv :: rest) = dictUpdate (dictSet d kv.1 kv.2) rest from rfl]
    rw [ih, dictHasKey_dictSet, dictHasKey]
    have hcomm : (decide (k = kv.1)) = (decide (kv.1 = k)) := by
      rw [decide_eq_decide]
      exact eq_comm
    rw [hcomm]
    cases decide (kv.1 = k) <;> cases dictHasKey d k <;> cases dictHasKey rest k <;> rfl

/-- Lookup after a Python `d.update(u)` for an update dict with distinct
keys: `u`'s binding wins when present. -/
theorem dictGet_dictUpdate (u : PyDict) (hu : (u.map Prod.fst).Nodup) :
    ∀ (d : PyDict) (k : JSON),
      dictGet (dictUpdate d u) k =
        (match dictGet u k with | some v => some v | none => dictGet d k) := by
  induction u with
  | nil => intro d k; rfl
  | cons kv rest ih =>
    intro d k
    rw [List.map_cons, List.nodup_cons] at hu
    rw [show dictUpdate d (kv :: rest) = dictUpdate (dictSet d kv.1 kv.2) rest from rfl]
    rw [ih hu.2, dictGet_dictSet, dictGet]
    by_cases hk : kv.1 = k
    · subst hk
      have hrest : dictGet rest kv.1 = none := by
        cases hg : dictGet rest kv.1 with
        | none => rfl
        | some w =>
          exact absurd (dictGet_isSome_mem rest kv.1 (by rw [hg]; rfl)) hu.1
      rw [hrest, if_pos rfl]
      simp
    · rw [if_neg hk, if_neg (fun h : k = kv.1 => hk h.symm)]

/-- `latest_def` with an arbitrary accumulator. -/
theorem latest_def_fold_acc (k : JSON) (maps : List PyDict) :
    ∀ acc : Option JSON,
      maps.foldl (fun acc m =>
        match dictGet m k with | some v => some v | none => acc) acc =
      (match latest_def k maps with | some v => some v | none => acc) := by
  induction maps with
  | nil => intro acc; rfl
  | cons m rest ih =>
    intro acc
    rw [List.foldl_cons]
    rw [show latest_def k (m :: rest) =
      rest.foldl (fun acc m =>
        match dictGet m k with | some v => some v | none => acc)
        (match dictGet m k with | some v => some v | none => none) from rfl]
    rw [ih, ih]
    cases latest_def k rest with
    | some v => rfl
    | none =>
      cases dictGet m k <;> rfl

/-- Key membership in a left fold of Python updates. -/
theorem dictHasKey_foldl_update (maps : List PyDict) :
    ∀ (d : PyDict) (k : JSON),
      dictHasKey (maps.foldl dictUpdate d) k =
        (dictHasKey d k || maps.any (fun pm => dictHasKey pm k)) := by
  induction maps with
  | nil =>
    intro d k
    simp
  | cons m rest ih =>
    intro d k
    rw [List.foldl_cons, ih, dictHasKey_dictUpdate, List.any_cons]
    cases dictHasKey d k <;> cases dictHasKey m k <;>
      cases rest.any (fun pm => dictHasKey pm k) <;> rfl

/-- Lookup in a left fold of Python updates over dicts with distinct keys:
the latest map defining the key wins. -/
theorem dictGet_foldl_update (maps : List PyDict)
    (hmaps : ∀ pm ∈ maps, (pm.map Prod.fst).Nodup) :
    ∀ (d : PyDict) (k : JSON),
      dictGet (maps.foldl dictUpdate d) k =
        (match latest_def k maps with | some v => some v | none => dictGet d k) := by
  induction maps with
  | nil => intro d k; rfl
  | cons m rest ih =>
    intro d k
    rw [List.foldl_cons]
    rw [ih (fun pm hpm => hmaps pm (List.mem_cons_of_mem _ hpm))]
    rw [dictGet_dictUpdate m (hmaps m (List.mem_cons_self _ _))]
    rw [show latest_def k (m :: rest) =
      rest.foldl (fun acc m =>
        match dictGet m k with | some v => some v | none => acc)
        (match dictGet m k with | some v => some v | none => none) from rfl]
    rw [latest_def_fold_acc]
    cases latest_def k rest with
    | some v => rfl
    | none => cases dictGet m k <;> rfl

/-- Key membership as membership among the keys. -/
theorem dictHasKey_iff_mem (d : PyDict) (k : JSON) :
    dictHasKey d k = true ↔ k ∈ d.map Prod.fst := by
  rw [dictHasKey_eq_any, List.any_eq_true]
  simp [List.mem_map]

/-- Every binding of `dictSet d k v` is the new binding or one of `d`. -/
theorem mem_dictSet (d : PyDict) (k v : JSON) :
    ∀ kv ∈ dictSet d k v, kv = (k, v) ∨ kv ∈ d := by
  intro kv hkv
  rw [dictSet] at hkv
  by_cases hany : d.any (fun kv => decide (kv.1 = k)) = true
  · rw [if_pos hany] at hkv
    rw [List.mem_map] at hkv
    obtain ⟨orig, horig, he⟩ := hkv
    by_cases ho : orig.1 = k
    · rw [if_pos ho] at he
      exact Or.inl he.symm
    · rw [if_neg ho] at he
      exact Or.inr (he ▸ horig)
  · rw [if_neg hany] at hkv
    rw [List.mem_append] at hkv
    rcases hkv with h | h
    · exact Or.inr h
    · exact Or.inl (by simpa using h)

/-- Overwriting in place does not change the key sequence. -/
theorem map_overwrite_keys (d : PyDict) (k v : JSON) :
    (d.map (fun kv => if kv.1 = k then (k, v) else kv)).map Prod.fst =
      d.map Prod.fst := by
  induction d with
  | nil => rfl
  | cons kv2 rest ih =>
    rw [List.map_cons, List.map_cons, List.map_cons, ih]
    by_cases hh : kv2.1 = k
    · rw [if_pos hh, show (k, v).1 = k from rfl, hh]
    · rw [if_neg hh]

/-- `dictSet` keeps the keys distinct. -/
theorem dictSet_keys_nodup (d : PyDict) (k v : JSON)
    (h : (d.map Prod.fst).Nodup) : ((dictSet d k v).map Prod.fst).Nodup := by
  rw [dictSet]
  by_cases hany : d.any (fun kv => decide (kv.1 = k)) = true
  · rw [if_pos hany, map_overwrite_keys]
    exact h
  · rw [if_neg hany, List.map_append]
    rw [List.nodup_append]
    refine ⟨h, List.nodup_singleton _, ?_⟩
    intro a ha hb
    simp only [List.map_cons, List.map_nil, List.mem_singleton] at hb
    have hk2 : dictHasKey d k = true := (dictHasKey_iff_mem d k).mpr (hb ▸ ha)
    rw [dictHasKey_eq_any] at hk2
    exact hany hk2

/-- `dictSet` with a dict value keeps all values dicts. -/
theorem dict_values_objs_dictSet (d : PyDict) (k v : JSON)
    (hd : dict_values_objs d) (hv : ∃ fs, v = JSON.obj fs) :
    dict_values_objs (dictSet d k v) := by
  intro kv hkv
  rcases mem_dictSet d k v kv hkv with rfl | h
  · exact hv
  · exact hd kv h

/-- A successful subscript implies the container is a dict. -/
theorem pyIndexStr_obj {c : JSON} {k : String} {v : JSON}
    (h : pyIndexStr c k = .ok v) : ∃ fs, c = JSON.obj fs := by
  cases c
  case obj fs => exact ⟨fs, rfl⟩
  all_goals simp [pyIndexStr] at h

/-- The profile-collection loop preserves distinct keys and dict values. -/
theorem profiles_fold_inv :
    ∀ (items : List JSON) (acc pm : PyDict),
      profiles_fold acc items = .ok pm →
      ((acc.map Prod.fst).Nodup → (pm.map Prod.fst).Nodup) ∧
      (dict_values_objs acc → dict_values_objs pm) := by
  intro items
  induction items with
  | nil =>
    intro acc pm h
    rw [profiles_fold] at h
    simp only [Except.ok.injEq] at h
    subst h
    exact ⟨id, id⟩
  | cons profile rest ih =>
    intro acc pm h
    rw [profiles_fold] at h
    split at h
    · simp at h
    · exact ih acc pm h
    · split at h
      · simp at h
      · exact ih acc pm h
      · split at h
        · simp at h
        next key hkey =>
          split at h
          next hhash =>
            obtain ⟨fs, rfl⟩ := pyIndexStr_obj hkey
            have hrec := ih (dictSet acc key (JSON.obj fs)) pm h
            exact ⟨fun hn => hrec.1 (dictSet_keys_nodup _ _ _ hn),
                   fun hv => hrec.2 (dict_values_objs_dictSet _ _ _ hv ⟨fs, rfl⟩)⟩
          · simp at h

/-- A successfully extracted profile map has distinct keys and dict
values. -/
theorem extract_profiles_ok_inv (page : JSON) (pm : PyDict)
    (h : extract_profiles_from_page page = .ok pm) :
    (pm.map Prod.fst).Nodup ∧ dict_values_objs pm := by
  rw [extract_profiles_from_page] at h
  split at h
  · simp at h
  · simp only [Except.ok.injEq] at h
    subst h
    exact ⟨List.nodup_nil, fun kv hkv => absurd hkv (List.not_mem_nil kv)⟩
  · split at h
    · simp at h
    next included hinc =>
      split at h
      · simp at h
      next items hitems =>
        have hrec := profiles_fold_inv items [] pm h
        exact ⟨hrec.1 List.nodup_nil,
               hrec.2 (fun kv hkv => absurd hkv (List.not_mem_nil kv))⟩

/-- Every extracted page profile map has distinct keys and dict values. -/
theorem page_profile_maps_inv (files : List PageFile) :
    ∀ pm ∈ page_profile_maps files, (pm.map Prod.fst).Nodup ∧ dict_values_objs pm := by
  intro pm hpm
  rw [page_profile_maps, List.mem_filterMap] at hpm
  obtain ⟨f, hf, hmatch⟩ := hpm
  cases hc : f.2 with
  | error msg => rw [hc] at hmatch; simp at hmatch
  | ok page =>
    rw [hc] at hmatch
    dsimp only at hmatch
    cases he : extract_profiles_from_page page with
    | error e => rw [he] at hmatch; simp [Except.toOption] at hmatch
    | ok pm2 =>
      rw [he] at hmatch
      simp [Except.toOption] at hmatch
      subst hmatch
      exact extract_profiles_ok_inv page pm2 he

/-- A successful loop run accumulates exactly the page profile maps by
Python updates. -/
theorem loop_profiles (build : JSON → PyDict → Option Row) :
    ∀ (files : List PageFile) (s s' : PState),
      process_pages_loop build s files = .ok s' →
      s'.all_profiles = (page_profile_maps files).foldl dictUpdate s.all_profiles := by
  intro files
  induction files with
  | nil =>
    intro s s' h
    rw [process_pages_loop] at h
    simp only [Except.ok.injEq] at h
    rw [← h]
    rfl
  | cons f rest ih =>
    intro s s' h
    rw [process_pages_loop] at h
    split at h
    · simp at h
    next t hstep =>
      obtain ⟨name, content⟩ := f
      cases content with
      | error msg =>
        rw [step_unreadable] at hstep
        simp only [Except.ok.injEq] at hstep
        subst hstep
        rw [ih _ _ h]
        rfl
      | ok page =>
        obtain ⟨pm, elements, hpm, hit, ht⟩ := step_ok_inversion build s name page t hstep
        subst ht
        rw [ih _ _ h]
        rw [show page_profile_maps ((name, Except.ok page) :: rest) =
          pm :: page_profile_maps rest from by
            rw [page_profile_maps, List.filterMap_cons]
            simp [hpm, Except.toOption, page_profile_maps]]
        rfl

/-- C6 (confirmed): after the page loop has processed the first `k`
snapshots, the cumulative profile map holds exactly the keys extracted from
snapshots `1..k` (the parseable ones — unreadable files contribute
nothing), each bound to the attributes from the latest snapshot that
defined it, and no key is ever removed by processing a further snapshot. -/
theorem c6_profile_map_invariant (log₀ : List String) (files : List PageFile)
    (k : Nat) (s' : PState)
    (h : process_pages_loop build_follower_row_existing ⟨[], [], log₀⟩
      (files.take k) = .ok s') :
    (∀ key, dictHasKey s'.all_profiles key = true ↔
       ∃ pm ∈ page_profile_maps (files.take k), dictHasKey pm key = true) ∧
    (∀ key, dictGet s'.all_profiles key =
       latest_def key (page_profile_maps (files.take k))) ∧
    (∀ s'', process_pages_loop build_follower_row_existing ⟨[], [], log₀⟩
        (files.take (k+1)) = .ok s'' →
       ∀ key, dictHasKey s'.all_profiles key = true →
         dictHasKey s''.all_profiles key = true) := by
  have hprof := loop_profiles build_follower_row_existing (files.take k) _ _ h
  refine ⟨?_, ?_, ?_⟩
  · intro key
    rw [hprof, dictHasKey_foldl_update]
    show (false || _) = true ↔ _
    rw [Bool.false_or, List.any_eq_true]
  · intro key
    rw [hprof, dictGet_foldl_update _
      (fun pm hpm => (page_profile_maps_inv (files.take k) pm hpm).1)]
    show _ = latest_def key (page_profile_maps (files.take k))
    cases latest_def key (page_profile_maps (files.take k)) with
    | some v => rfl
    | none => rfl
  · intro s'' h'' key hk
    have hprof'' := loop_profiles build_follower_row_existing (files.take (k+1)) _ _ h''
    rw [hprof'', dictHasKey_foldl_update]
    rw [hprof, dictHasKey_foldl_update] at hk
    show (false || _) = true
    rw [Bool.false_or, List.any_eq_true]
    dsimp only at hk
    rw [show dictHasKey ([] : PyDict) key = false from rfl, Bool.false_or,
      List.any_eq_true] at hk
    obtain ⟨pm, hpm, hkey⟩ := hk
    refine ⟨pm, ?_, hkey⟩
    rw [List.take_succ, page_profile_maps, List.filterMap_append]
    rw [page_profile_maps] at hpm
    exact List.mem_append_left _ hpm

/-- C6 (witness): after processing the first (and only) snapshot of
`demo_files`, the cumulative profile map contains the demo profile's URN,
bound to the demo profile. -/
theorem c6_witness :
    (process_pages_loop build_follower_row_existing ⟨[], [], []⟩
        (demo_files.take 1)).map
        (fun s' => dictHasKey s'.all_profiles (JSON.str "urn:li:fsd_profile:p1")) =
      .ok true ∧
    (process_pages_loop build_follower_row_existing ⟨[], [], []⟩
        (demo_files.take 1)).map
        (fun s' => dictGet s'.all_profiles (JSON.str "urn:li:fsd_profile:p1")) =
      .ok (some demo_profile) := by
  cases hrun : process_pages_loop build_follower_row_existing ⟨[], [], []⟩
      (demo_files.take 1) with
  | error e =>
    cases e
    exact absurd hrun (by decide)
  | ok s' =>
    have h := c6_profile_map_invariant [] demo_files 1 s' hrun
    constructor
    · exact congrArg Except.ok ((h.1 _).mpr (by decide))
    · exact congrArg Except.ok ((h.2.1 _).trans (by decide))

/-! ## C5 — row count equals element count -/

/-- A defined lookup returns one of the dict's stored values. -/
theorem dictGet_some_mem (d : PyDict) (k v : JSON) (h : dictGet d k = some v) :
    ∃ kv ∈ d, kv.2 = v := by
  induction d with
  | nil => simp [dictGet] at h
  | cons kv rest ih =>
    rw [dictGet] at h
    by_cases hh : kv.1 = k
    · rw [if_pos hh] at h
      exact ⟨kv, List.mem_cons_self _ _, by simpa using h⟩
    · rw [if_neg hh] at h
      obtain ⟨kv2, hkv2, he⟩ := ih h
      exact ⟨kv2, List.mem_cons_of_mem _ hkv2, he⟩

/-- A Python `d.update(u)` of dict-valued dicts is dict-valued. -/
theorem dict_values_objs_dictUpdate (u : PyDict) :
    ∀ d, dict_values_objs d → dict_values_objs u →
      dict_values_objs (dictUpdate d u) := by
  induction u with
  | nil => intro d hd _; exact hd
  | cons kv rest ih =>
    intro d hd hu
    rw [show dictUpdate d (kv :: rest) = dictUpdate (dictSet d kv.1 kv.2) rest from rfl]
    refine ih _ ?_ (fun kv2 hkv2 => hu kv2 (List.mem_cons_of_mem _ hkv2))
    refine dict_values_objs_dictSet _ _ _ hd ?_
    have := hu kv (List.mem_cons_self _ _)
    simpa using this

/-- On a well-formed element, with a dict-valued profile map, the row
builder of either script cannot raise. -/
theorem build_existing_succeeds (e : JSON) (m : PyDict)
    (he : element_ok e = true) (hm : dict_values_objs m) :
    (build_follower_row_existing e m).isSome = true := by
  cases e with
  | obj efs =>
    rw [element_ok] at he
    have hresolve : ∃ u, resolve_profile_urn (JSON.obj efs) = .ok u ∧
        ∃ pfs, resolve_profile u m = .ok (JSON.obj pfs) := by
      cases hfind : efs.find? (fun kv => kv.1 == "followerV2") with
      | none =>
        have hin : pyInStr "followerV2" (JSON.obj efs) = .ok false := by
          rw [pyInStr]
          refine congrArg Except.ok ?_
          rw [List.any_eq_false]
          intro kv hkv
          simpa using List.find?_eq_none.mp hfind kv hkv
        exact ⟨none, by simp [resolve_profile_urn, hin], [], rfl⟩
      | some kv =>
        rw [hfind] at he
        dsimp only at he
        have hmem := List.mem_of_find?_eq_some hfind
        have hp := List.find?_some hfind
        have hany : efs.any (fun kv => kv.1 == "followerV2") = true :=
          List.any_eq_true.mpr ⟨kv, hmem, hp⟩
        have hin : pyInStr "followerV2" (JSON.obj efs) = .ok true := by
          rw [pyInStr, hany]
        have hidx : pyIndexStr (JSON.obj efs) "followerV2" = .ok kv.2 := by
          rw [pyIndexStr, hfind]
        cases hkv2 : kv.2 with
        | obj fvs =>
          rw [hkv2] at he hidx
          dsimp only at he
          cases hfind2 : fvs.find? (fun kv2 => kv2.1 == "*profile") with
          | none =>
            have hin2 : pyInStr "*profile" (JSON.obj fvs) = .ok false := by
              rw [pyInStr]
              refine congrArg Except.ok ?_
              rw [List.any_eq_false]
              intro kv2 hkv2m
              simpa using List.find?_eq_none.mp hfind2 kv2 hkv2m
            refine ⟨none, ?_, [], rfl⟩
            simp [resolve_profile_urn, hin, hidx, hin2]
          | some kv2 =>
            rw [hfind2] at he
            dsimp only at he
            have hmem2 := List.mem_of_find?_eq_some hfind2
            have hp2 := List.find?_some hfind2
            have hany2 : fvs.any (fun kv2 => kv2.1 == "*profile") = true :=
              List.any_eq_true.mpr ⟨kv2, hmem2, hp2⟩
            have hin2 : pyInStr "*profile" (JSON.obj fvs) = .ok true := by
              rw [pyInStr, hany2]
            have hidx2 : pyIndexStr (JSON.obj fvs) "*profile" = .ok kv2.2 := by
              rw [pyIndexStr, hfind2]
            refine ⟨some kv2.2, ?_, ?_⟩
            · simp [resolve_profile_urn, hin, hidx, hin2, hidx2]
            · by_cases htr : pyTruthy kv2.2 = true
              · have hhash : pyHashable kv2.2 = true := by
                  rw [Bool.or_eq_true] at he
                  rcases he with h | h
                  · rw [htr] at h
                    simp at h
                  · exact h
                rw [resolve_profile, if_pos htr, if_pos hhash]
                cases hg : dictGet m kv2.2 with
                | none => exact ⟨[], rfl⟩
                | some v =>
                  obtain ⟨kvm, hkvm, hv⟩ := dictGet_some_mem m kv2.2 v hg
                  obtain ⟨pfs, hpfs⟩ := hm kvm hkvm
                  refine ⟨pfs, ?_⟩
                  rw [show v = JSON.obj pfs from hv.symm.trans hpfs]
                  rfl
              · rw [resolve_profile, if_neg htr]
                exact ⟨[], rfl⟩
        | null => rw [hkv2] at he; simp at he
        | bool b => rw [hkv2] at he; simp at he
        | num n => rw [hkv2] at he; simp at he
        | str sv => rw [hkv2] at he; simp at he
        | arr l => rw [hkv2] at he; simp at he
    obtain ⟨u, hu, pfs, hprof⟩ := hresolve
    have hparts := follower_row_parts_eq (m := m) hu hprof rfl
    rw [build_follower_row_existing, hparts]
    rfl
  | null => simp [element_ok] at he
  | bool b => simp [element_ok] at he
  | num n => simp [element_ok] at he
  | str sv => simp [element_ok] at he
  | arr l => simp [element_ok] at he

/-- When the row builder succeeds on every element, the inner loop emits
exactly one row per element. -/
theorem page_rows_fold_length (build : JSON → PyDict → Option Row) (p : PyDict) :
    ∀ els, (∀ e ∈ els, (build e p).isSome = true) →
      (page_rows_fold build p els).1.length = els.length := by
  intro els
  induction els with
  | nil => intro _; rfl
  | cons e rest ih =>
    intro hall
    cases hb : build e p with
    | some r =>
      rw [page_rows_fold, hb]
      dsimp only
      rw [List.length_cons, ih (fun e2 he2 => hall e2 (List.mem_cons_of_mem _ he2))]
      rfl
    | none =>
      exfalso
      have := hall e (List.mem_cons_self _ _)
      rw [hb] at this
      simp at this

/-- Row-count accounting for the page loop of
`process_existing_followers.py`: on well-formed elements every element
contributes exactly one row. -/
theorem loop_rows_length :
    ∀ (files : List PageFile) (s s' : PState),
      process_pages_loop build_follower_row_existing s files = .ok s' →
      dict_values_objs s.all_profiles →
      (∀ e ∈ all_elements files, element_ok e = true) →
      s'.all_rows.length = s.all_rows.length + (all_elements files).length := by
  intro files
  induction files with
  | nil =>
    intro s s' h _ _
    rw [process_pages_loop] at h
    simp only [Except.ok.injEq] at h
    rw [← h]
    rfl
  | cons f rest ih =>
    intro s s' h hvals hels
    rw [process_pages_loop] at h
    split at h
    · simp at h
    next t hstep =>
      obtain ⟨name, content⟩ := f
      cases content with
      | error msg =>
        rw [step_unreadable] at hstep
        simp only [Except.ok.injEq] at hstep
        subst hstep
        have hcons : all_elements ((name, Except.error msg) :: rest) =
            all_elements rest := by
          rw [all_elements, List.flatMap_cons]
          rfl
        rw [hcons] at hels ⊢
        exact ih { s with log := s.log ++ ["Processing " ++ name ++ "...",
          "Error reading " ++ name ++ ": " ++ msg] } s' h hvals hels
      | ok page =>
        obtain ⟨pm, elements, hpm, hit, ht⟩ :=
          step_ok_inversion build_follower_row_existing s name page t hstep
        subst ht
        have hpelems : page_elements page = elements := by
          rw [page_elements, hit]
        have hcons : all_elements ((name, Except.ok page) :: rest) =
            elements ++ all_elements rest := by
          rw [all_elements, List.flatMap_cons, ← hpelems]
          rfl
        rw [hcons] at hels
        have hvals' : dict_values_objs (dictUpdate s.all_profiles pm) :=
          dict_values_objs_dictUpdate pm s.all_profiles hvals
            (extract_profiles_ok_inv page pm hpm).2
        have hlenfold : (page_rows_fold build_follower_row_existing
            (dictUpdate s.all_profiles pm) elements).1.length = elements.length :=
          page_rows_fold_length _ _ elements
            (fun e hel => build_existing_succeeds e _
              (hels e (List.mem_append_left _ hel)) hvals')
        have hrec := ih _ _ h hvals'
          (fun e he => hels e (List.mem_append_right _ he))
        rw [hrec]
        dsimp only
        rw [hcons, List.length_append, List.length_append, hlenfold]
        omega

/-- Stable insertion produces a permutation. -/
theorem insertSorted_perm {α : Type} (le : α → α → Bool) (x : α) :
    ∀ l, List.Perm (insertSorted le x l) (x :: l) := by
  intro l
  induction l with
  | nil => exact List.Perm.refl _
  | cons y ys ih =>
    rw [insertSorted]
    by_cases h : le x y = true
    · rw [if_pos h]
    · rw [if_neg h]
      exact (List.Perm.cons y ih).trans (List.Perm.swap x y ys)

/-- Python's `sorted` permutes its input. -/
theorem sortBy_perm {α : Type} (le : α → α → Bool) :
    ∀ l, List.Perm (sortBy le l) l := by
  intro l
  induction l with
  | nil => exact List.Perm.refl _
  | cons x xs ih =>
    rw [sortBy]
    exact (insertSorted_perm le x (sortBy le xs)).trans (List.Perm.cons x ih)

/-- Sorting the snapshot files permutes the contributed elements. -/
theorem all_elements_sort_perm (files : List PageFile) :
    List.Perm (all_elements (sort_page_files files)) (all_elements files) := by
  rw [all_elements, all_elements]
  exact List.Perm.flatMap_right _ (sortBy_perm _ files)

/-- C5 (counterexample): a snapshot with one malformed (`null`) relationship
element produces ZERO output rows while one element was extracted — the
`if row:` guard silently drops elements on which the row builder raised. -/
theorem c5_counterexample :
    (process_existing_pages null_element_files).map (fun p => p.2.length) = .ok 0 ∧
    total_elements null_element_files = 1 := by
  constructor <;> decide

/-- C5 (amended): the number of output rows equals the total count of
relationship elements across all parsed snapshots whenever every extracted
element is well formed (a dict whose `followerV2`, when present, is a dict
whose `*profile`, when present, is falsy or hashable); rows are never
deduplicated — each element contributes its own row. Malformed elements
that make the row builder raise are dropped instead. -/
theorem c5_row_count (files : List PageFile) (log : List String) (rows : List Row)
    (h : process_existing_pages files = .ok (log, rows))
    (hel : ∀ e ∈ all_elements files, element_ok e = true) :
    rows.length = total_elements files := by
  rw [process_existing_pages] at h
  by_cases hemp : (sort_page_files files).isEmpty
  · rw [if_pos hemp] at h
    simp only [Except.ok.injEq, Prod.mk.injEq] at h
    have hfiles : files = [] := by
      cases files with
      | nil => rfl
      | cons f fs =>
        exfalso
        have hlen : (sort_page_files (f :: fs)).length = fs.length + 1 := by
          rw [sort_page_files, sortBy_length]
          rfl
        cases hsf : sort_page_files (f :: fs) with
        | nil => rw [hsf] at hlen; simp at hlen
        | cons a as => rw [hsf] at hemp; simp [List.isEmpty] at hemp
    subst hfiles
    rw [← h.2]
    rfl
  · rw [if_neg hemp] at h
    split at h
    · simp at h
    next st hloop =>
      simp only [Except.ok.injEq, Prod.mk.injEq] at h
      have hrows : rows = st.all_rows := h.2.symm
      subst hrows
      have hlen := loop_rows_length (sort_page_files files) _ _ hloop
        (fun kv hkv => absurd hkv (List.not_mem_nil kv))
        (fun e he => hel e ((all_elements_sort_perm files).mem_iff.mp he))
      rw [hlen]
      dsimp only
      rw [List.length_nil, Nat.zero_add, total_elements]
      exact (all_elements_sort_perm files).length_eq

/-- C5 (witness): on the well-formed `demo_files`, whose single snapshot
holds two elements referencing the same profile, the reducer emits exactly
`total_elements demo_files = 2` rows — one per element, no deduplication. -/
theorem c5_witness :
    (process_existing_pages demo_files).map (fun p => p.2.length) =
      .ok (total_elements demo_files) ∧
    total_elements demo_files = 2 := by
  cases hrun : process_existing_pages demo_files with
  | error e =>
    cases e
    exact absurd hrun (by decide)
  | ok p =>
    obtain ⟨log, rows⟩ := p
    have h := c5_row_count demo_files log rows hrun (by decide)
    exact ⟨congrArg Except.ok h, by decide⟩
